import Mathlib

/-!
# Verification of gochat's routing core

A shallow embedding of the `gochat` package (files `user.go`, `server.go`,
and its channel/group/message companions).  Go maps are embedded as
association lists with Go-map semantics (insert overwrites, delete is a
no-op on absent keys, lookup finds the registered entry).  Go channels
to actor loops (`registerChannel <- c`, `group.registerUser <- u`, ...)
are given the sequential interpretation: each send is processed at once
by the owning actor's handler, which is the intended synchronous meaning
of the message-passing discipline described in the repository's design.

The per-user outbound byte queue `send chan []byte` is embedded as a list
of `Message` envelope values: `user.send <- []byte(message.encode())`
appends the envelope that was encoded, since the JSON encoding step is
injective and only the identity and number of queued frames matter here.
-/

set_option autoImplicit false
set_option linter.dupNamespace false

namespace Gochat

/-! ## Go maps as association lists -/

/-- `m[k]` read: the value of the first entry with key `k`, if any. -/
def mapLookup {κ α : Type} [DecidableEq κ] : List (κ × α) → κ → Option α
  | [], _ => none
  | (k, v) :: rest, key => if key = k then some v else mapLookup rest key

/-- Replace the value at key `k` (no-op when the key is absent). -/
def mapUpdate {κ α : Type} [DecidableEq κ] (m : List (κ × α)) (k : κ) (f : α → α) :
    List (κ × α) :=
  m.map (fun p => if p.1 = k then (p.1, f p.2) else p)

/-- `m[k] = v`: Go map insertion, overwriting an existing entry. -/
def mapInsert {κ α : Type} [DecidableEq κ] (m : List (κ × α)) (k : κ) (v : α) :
    List (κ × α) :=
  if (mapLookup m k).isSome then mapUpdate m k (fun _ => v) else m ++ [(k, v)]

/-- `delete(m, k)`: Go map deletion, a no-op when the key is absent. -/
def mapDelete {κ α : Type} [DecidableEq κ] (m : List (κ × α)) (k : κ) :
    List (κ × α) :=
  m.filter (fun p => p.1 ≠ k)

/-- Number of entries stored under key `k`. -/
def countKey {κ α : Type} [DecidableEq κ] (m : List (κ × α)) (k : κ) : Nat :=
  m.countP (fun p => p.1 = k)

/-! ## Wire schema (`message.go`, not in the sources; schema from the wire
envelope: command, user?, channel?, group?, message?, target?, response?). -/

/-- Modelled from the spec: the wire view of a user
(`{ id, name, additionalInfo? }`); `message.go` is not among the sources. -/
structure UserInfo where
  id : String
  name : String
  additionalInfo : List (String × String)
deriving DecidableEq, Repr

/-- Modelled from the spec: the wire view of a channel
(`{ id, name, additionalInfo? }`). -/
structure ChannelInfo where
  id : String
  name : String
  additionalInfo : List (String × String)
deriving DecidableEq, Repr

/-- Modelled from the spec: the wire view of a group
(`{ id, name, additionalInfo? }`). -/
structure GroupInfo where
  id : String
  name : String
  additionalInfo : List (String × String)
deriving DecidableEq, Repr

/-- Modelled from the spec: `message: { type: "text", text }`. -/
structure MessageInfo where
  type : String
  Text : String
deriving DecidableEq, Repr

/-- Modelled from the spec: `target: { type: "direct"|"group", user?, group? }`. -/
structure TargetInfo where
  type : String
  User : Option UserInfo
  Group : Option GroupInfo
deriving DecidableEq, Repr

/-- Modelled from the spec: `response: { status: bool, message: <code string> }`. -/
structure ResponseInfo where
  Status : Bool
  Message : String
deriving DecidableEq, Repr

/-- Modelled from the spec: the message envelope, both wire request and wire
response shape.  The `Message` field is the optional message body. -/
structure Message where
  Command : String
  User : Option UserInfo
  Channel : Option ChannelInfo
  Group : Option GroupInfo
  Message : Option MessageInfo
  Target : Option TargetInfo
  Response : Option ResponseInfo
deriving DecidableEq, Repr

/-- Modelled from the spec: the command enum of the wire envelope. -/
def CommandUserConnect : String := "user-connect"

/-- Modelled from the spec: the command enum of the wire envelope. -/
def CommandMessageSend : String := "message-send"

/-- Modelled from the spec: the command enum of the wire envelope. -/
def CommandGroupJoin : String := "group-join"

/-- Modelled from the spec: the command enum of the wire envelope. -/
def CommandGroupLeave : String := "group-leave"

/-- Modelled from the spec: the `target.type` discriminator for direct sends. -/
def TypeTargetDirect : String := "direct"

/-- Modelled from the spec: the `target.type` discriminator for group sends. -/
def TypeTargetGroup : String := "group"

/-- Modelled from the spec: the message-body type of text messages. -/
def TypeMessageText : String := "text"

/-- Modelled from the spec: response code `success`. -/
def ResponseMessageSuccess : String := "success"

/-- Modelled from the spec: response code `invalidPayload`. -/
def ResponseMessageInvalidPayload : String := "invalidPayload"

/-- Modelled from the spec: response code `userTargetNotConnected`. -/
def ResponseMessageUserTargetNotConnected : String := "userTargetNotConnected"

/-- Modelled from the spec: the canned "connected" text sent on a successful
connect.  Its exact wording is not observable by any claim. -/
def MessageUserConnectSuccessful : String := "connect channel successful"

/-- Modelled from the spec: the canned text sent on a successful group join.
Its exact wording is not observable by any claim. -/
def MessageGroupJoin : String := "user joined the group"

/-- Activity-type tag `user-channel-connect` (`user.go`). -/
def TypeUserActivityChannelConnect : String := "user-channel-connect"

/-- Activity-type tag `user-group-join` (`user.go`). -/
def TypeUserActivityGroupJoin : String := "user-group-join"

/-- Activity-type tag `user-group-leave` (`user.go`). -/
def TypeUserActivityGroupLeave : String := "user-group-leave"

/-- Activity-type tag `user-message-send` (`user.go`). -/
def TypeUserActivityMessageSend : String := "user-message-send"

/-- Activity-type tag `user-disconnect` (`user.go`). -/
def TypeUserActivityDisconnect : String := "user-disconnect"

/-- `UserActivity` (`user.go`): `{ Type, Message }`, with a nil message on
disconnect.  The unbuffered activity channel is embedded as an event log. -/
structure UserActivity where
  type : String
  Message : Option Message
deriving DecidableEq, Repr

/-! ## Runtime state

Go identifies users, channels and groups by pointer.  The embedding names a
user by the connection it arrived on (a `Nat`), a channel by its id (ids are
unique in the server registry), and a group by an allocation tag (a `Nat`
drawn from a counter), since distinct group instances with the same id must
be distinguishable (a fresh group is allocated after the old one is
unregistered). -/

/-- `Group` (`group.go`, not in the sources): `id`, `name`, `additionalInfo`,
and the membership map `users` keyed by user id; each member's value is the
connection of that `*User`.  `inst` is the pointer identity of the instance. -/
structure Group where
  inst : Nat
  ID : String
  Name : String
  AdditionalInfo : List (String × String)
  users : List (String × Nat)
deriving DecidableEq, Repr

/-- `Channel` (`channel.go`, not in the sources): `id`, `name`,
`additionalInfo`, the user registry keyed by user id (values are connections
of the `*User`s) and the group registry keyed by group id (values are the
allocation tags of the `*Group`s). -/
structure Channel where
  ID : String
  Name : String
  AdditionalInfo : List (String × String)
  users : List (String × Nat)
  groups : List (String × Nat)
deriving DecidableEq, Repr

/-- `User` (`user.go`): identity fields, the channel joined (nil before a
successful connect), the locally tracked joined-groups map, the outbound
queue and the activity stream. -/
structure User where
  ID : String
  Name : String
  AdditionalInfo : List (String × String)
  channel : Option String
  groups : List (String × Nat)
  send : List Message
  activity : List UserActivity
deriving DecidableEq, Repr

/-- The whole routing state: the server's channel registry, every allocated
group instance keyed by its allocation tag, every user keyed by its
connection, and the allocation counter for fresh group instances. -/
structure SystemState where
  channels : List (String × Channel)
  groupStore : List (Nat × Group)
  users : List (Nat × User)
  nextInst : Nat
deriving DecidableEq, Repr

/-- `NewUser` (`user.go`): a user before its connect command, with empty
identity, no channel, empty joined-set and empty queues. -/
def NewUser : User :=
  { ID := "", Name := "", AdditionalInfo := [], channel := none,
    groups := [], send := [], activity := [] }

/-- Modelled from the spec: `NewChannel` (`channel.go` is not among the
sources) creates a channel with empty user and group registries. -/
def NewChannel (id name : String) (additionalInfo : List (String × String)) :
    Channel :=
  { ID := id, Name := name, AdditionalInfo := additionalInfo,
    users := [], groups := [] }

/-- Modelled from the spec: `NewGroup` (`group.go` is not among the sources)
creates a group with an empty membership map; `inst` is its fresh identity. -/
def NewGroup (inst : Nat) (id name : String)
    (additionalInfo : List (String × String)) : Group :=
  { inst := inst, ID := id, Name := name, AdditionalInfo := additionalInfo,
    users := [] }

/-! ## Server actor (`server.go`) -/

/-- `findChannelByID` (`server.go`): registry lookup, nil when absent. -/
def findChannelByID (channels : List (String × Channel)) (channelID : String) :
    Option Channel :=
  mapLookup channels channelID

/-- `handleRegisterChannel` (`server.go`): insert the channel only when no
channel with its id is registered. -/
def handleRegisterChannel (channels : List (String × Channel)) (channel : Channel) :
    List (String × Channel) :=
  if (mapLookup channels channel.ID).isSome then channels
  else mapInsert channels channel.ID channel

/-- `handleUnregisterChannel` (`server.go`): `delete(server.channels, channel.ID)`. -/
def handleUnregisterChannel (channels : List (String × Channel)) (channel : Channel) :
    List (String × Channel) :=
  mapDelete channels channel.ID

/-! ## State accessors -/

/-- Apply `f` to the user on connection `conn`. -/
def updUser (s : SystemState) (conn : Nat) (f : User → User) : SystemState :=
  { s with users := mapUpdate s.users conn f }

/-- Apply `f` to the channel registered under `chID`. -/
def updChannel (s : SystemState) (chID : String) (f : Channel → Channel) : SystemState :=
  { s with channels := mapUpdate s.channels chID f }

/-- Apply `f` to the group instance with allocation tag `inst`. -/
def updGroup (s : SystemState) (inst : Nat) (f : Group → Group) : SystemState :=
  { s with groupStore := mapUpdate s.groupStore inst f }

/-- `user.send <- []byte(message.encode())`: enqueue a frame on the outbound
queue of the user on connection `conn`. -/
def pushSend (s : SystemState) (conn : Nat) (message : Message) : SystemState :=
  updUser s conn (fun u => { u with send := u.send ++ [message] })

/-- The outbound queue of the user on connection `conn` (empty when no such
user exists). -/
def userSend (s : SystemState) (conn : Nat) : List Message :=
  match mapLookup s.users conn with
  | some u => u.send
  | none => []

/-- The activity stream of the user on connection `conn`. -/
def userActivity (s : SystemState) (conn : Nat) : List UserActivity :=
  match mapLookup s.users conn with
  | some u => u.activity
  | none => []

/-- The wire view (exported fields) of a `*User`, as produced when a handler
stores the user into the envelope's `User` field. -/
def userInfoOf (u : User) : UserInfo :=
  { id := u.ID, name := u.Name, additionalInfo := u.AdditionalInfo }

/-- The wire view (exported fields) of a `*Group`. -/
def groupInfoOf (g : Group) : GroupInfo :=
  { id := g.ID, name := g.Name, additionalInfo := g.AdditionalInfo }

/-! ## Channel and group actors (`channel.go`, `group.go`; not in the
sources, modelled from the spec's component design) -/

/-- Modelled from the spec: the Channel actor's `registerUser` operation
(`channel.go` is not among the sources): `channel.users[user.ID] = user`. -/
def Channel.handleRegisterUser (ch : Channel) (uid : String) (conn : Nat) : Channel :=
  { ch with users := mapInsert ch.users uid conn }

/-- Modelled from the spec: the Channel actor's `unregisterUser` operation:
remove the user from the channel's user registry by id. -/
def Channel.handleUnregisterUser (ch : Channel) (uid : String) : Channel :=
  { ch with users := mapDelete ch.users uid }

/-- Modelled from the spec: the Channel actor's `registerGroup` operation:
`channel.groups[group.ID] = group`. -/
def Channel.handleRegisterGroup (ch : Channel) (g : Group) : Channel :=
  { ch with groups := mapInsert ch.groups g.ID g.inst }

/-- Modelled from the spec: the Channel actor's `unregisterGroup` operation:
`delete(channel.groups, group.ID)`. -/
def Channel.handleUnregisterGroup (ch : Channel) (g : Group) : Channel :=
  { ch with groups := mapDelete ch.groups g.ID }

/-- Modelled from the spec: `channel.findUserByID`, the name-resolution
lookup for direct targets; yields the connection of the registered `*User`. -/
def Channel.findUserByID (ch : Channel) (uid : String) : Option Nat :=
  mapLookup ch.users uid

/-- Modelled from the spec: `channel.findGroupByID`; yields the allocation
tag of the registered `*Group`. -/
def Channel.findGroupByID (ch : Channel) (gid : String) : Option Nat :=
  mapLookup ch.groups gid

/-- Modelled from the spec: the Group actor's `registerUser` operation:
`group.users[user.ID] = user`. -/
def Group.handleRegisterUser (g : Group) (uid : String) (conn : Nat) : Group :=
  { g with users := mapInsert g.users uid conn }

/-- Modelled from the spec: the Group actor's `unregisterUser` operation:
`delete(group.users, user.ID)`. -/
def Group.handleUnregisterUser (g : Group) (uid : String) : Group :=
  { g with users := mapDelete g.users uid }

/-! ## User command handlers (`user.go`) -/

/-- `handleUserConnect` (`user.go` lines 163-201): on a payload carrying both
a user and a channel, adopt the identity, find or lazily create and register
the channel, register into it, and reply success; otherwise reply
`invalidPayload`.  The reply is sent in both branches. -/
def handleUserConnect (s : SystemState) (conn : Nat) (message : Message) :
    SystemState :=
  match mapLookup s.users conn with
  | none => s
  | some user =>
    match message.User, message.Channel with
    | some mu, some mc =>
      let user1 : User :=
        { user with ID := mu.id, Name := mu.name, AdditionalInfo := mu.additionalInfo }
      let s1 :=
        if (findChannelByID s.channels mc.id).isSome then s
        else { s with channels :=
          handleRegisterChannel s.channels (NewChannel mc.id mc.name mc.additionalInfo) }
      let s2 := updUser s1 conn (fun _ => { user1 with channel := some mc.id })
      let s3 := updChannel s2 mc.id (fun ch => ch.handleRegisterUser user1.ID conn)
      pushSend s3 conn
        { message with
          Message := some { type := TypeMessageText, Text := MessageUserConnectSuccessful },
          Response := some { Status := true, Message := ResponseMessageSuccess } }
    | _, _ =>
      pushSend s conn
        { message with
          Response := some { Status := false, Message := ResponseMessageInvalidPayload } }

/-- `handleGroupJoin` (`user.go` lines 214-244): on a payload carrying a
group, find or lazily create the group, register it with the channel,
register the user into it, record it in the user's joined-set keyed by the
group's id, and reply success.  A payload without a group does nothing. -/
def handleGroupJoin (s : SystemState) (conn : Nat) (message : Message) :
    SystemState :=
  match mapLookup s.users conn with
  | none => s
  | some user =>
    match message.Group with
    | none => s
    | some mg =>
      match user.channel with
      | none => s
      | some chID =>
        match mapLookup s.channels chID with
        | none => s
        | some ch =>
          let (s1, group) :=
            match Channel.findGroupByID ch mg.id >>= fun i => mapLookup s.groupStore i with
            | some g => (s, g)
            | none =>
              let g := NewGroup s.nextInst mg.id mg.name mg.additionalInfo
              ({ s with groupStore := s.groupStore ++ [(g.inst, g)],
                        nextInst := s.nextInst + 1 }, g)
          let s2 := updChannel s1 chID (fun c => c.handleRegisterGroup group)
          let s3 := updGroup s2 group.inst (fun g => g.handleRegisterUser user.ID conn)
          let s4 := updUser s3 conn
            (fun u => { u with groups := mapInsert u.groups group.ID group.inst })
          pushSend s4 conn
            { message with
              User := some (userInfoOf user),
              Message := some { type := TypeMessageText, Text := MessageGroupJoin },
              Response := some { Status := true, Message := ResponseMessageSuccess } }

/-- `handleGroupLeave` (`user.go` lines 246-275): on a payload without a
group, reply `invalidPayload`; on an existing group, delete from the user's
joined-set the entry keyed by the user's own id (sic, `delete(user.groups,
user.ID)`), unregister the user from the group, unregister the group from
the channel when its membership became empty, and reply success; an unknown
group id does nothing. -/
def handleGroupLeave (s : SystemState) (conn : Nat) (message : Message) :
    SystemState :=
  match mapLookup s.users conn with
  | none => s
  | some user =>
    match message.Group with
    | none =>
      pushSend s conn
        { message with
          Response := some { Status := false, Message := ResponseMessageInvalidPayload } }
    | some mg =>
      match user.channel with
      | none => s
      | some chID =>
        match mapLookup s.channels chID with
        | none => s
        | some ch =>
          match Channel.findGroupByID ch mg.id >>= fun i => mapLookup s.groupStore i with
          | none => s
          | some group =>
            let s1 := updUser s conn
              (fun u => { u with groups := mapDelete u.groups user.ID })
            let group1 := group.handleUnregisterUser user.ID
            let s2 := updGroup s1 group.inst (fun _ => group1)
            let s3 :=
              if group1.users.length = 0
              then updChannel s2 chID (fun c => c.handleUnregisterGroup group1)
              else s2
            pushSend s3 conn
              { message with
                User := some (userInfoOf user),
                Group := some (groupInfoOf group1),
                Response := some { Status := true, Message := ResponseMessageSuccess } }

/-- `handleSendDirectMessage` (`user.go` lines 295-320): resolve the target
user in the channel; when absent reply `userTargetNotConnected` to the
sender only; when present forward the (unmodified) envelope to the target's
outbound queue and reply success to the sender. -/
def handleSendDirectMessage (s : SystemState) (conn : Nat) (message : Message) :
    SystemState :=
  match mapLookup s.users conn with
  | none => s
  | some user =>
    match message.Target with
    | none => s
    | some target =>
      match target.User with
      | none => s
      | some tu =>
        match user.channel with
        | none => s
        | some chID =>
          match mapLookup s.channels chID with
          | none => s
          | some ch =>
            match Channel.findUserByID ch tu.id with
            | none =>
              pushSend s conn
                { message with
                  Response := some { Status := false,
                                     Message := ResponseMessageUserTargetNotConnected },
                  User := some (userInfoOf user) }
            | some tconn =>
              match mapLookup s.users tconn with
              | none => s
              | some userTarget =>
                let s1 := pushSend s tconn message
                pushSend s1 conn
                  { message with
                    User := some (userInfoOf user),
                    Target := some { target with User := some (userInfoOf userTarget) },
                    Response := some { Status := true, Message := ResponseMessageSuccess } }

/-- The fan-out loop of `handlerSendGroupMessage`: walk the group's
membership map and push a copy to every member whose (live) id differs from
the sender's. -/
def broadcastToMembers (s : SystemState) (senderID : String)
    (members : List (String × Nat)) (message : Message) : SystemState :=
  members.foldl
    (fun t p =>
      match mapLookup t.users p.2 with
      | some member => if member.ID ≠ senderID then pushSend t p.2 message else t
      | none => t)
    s

/-- `handlerSendGroupMessage` (`user.go` lines 322-343): resolve the target
group in the channel; when present, stamp the sender and the group into the
envelope, fan a copy out to every member except the sender, then reply
success to the sender; when absent, silently drop the command. -/
def handlerSendGroupMessage (s : SystemState) (conn : Nat) (message : Message) :
    SystemState :=
  match mapLookup s.users conn with
  | none => s
  | some user =>
    match message.Target with
    | none => s
    | some target =>
      match target.Group with
      | none => s
      | some tg =>
        match user.channel with
        | none => s
        | some chID =>
          match mapLookup s.channels chID with
          | none => s
          | some ch =>
            match Channel.findGroupByID ch tg.id >>= fun i => mapLookup s.groupStore i with
            | none => s
            | some groupTarget =>
              let message1 :=
                { message with
                  User := some (userInfoOf user),
                  Target := some { target with Group := some (groupInfoOf groupTarget) } }
              let s1 := broadcastToMembers s user.ID groupTarget.users message1
              pushSend s1 conn
                { message1 with
                  Response := some { Status := true, Message := ResponseMessageSuccess } }

/-- `handleSendMessage` (`user.go` lines 277-293): require a message body and
a target, replying `invalidPayload` otherwise; then dispatch on the target
kind (an unknown kind does nothing). -/
def handleSendMessage (s : SystemState) (conn : Nat) (message : Message) :
    SystemState :=
  if message.Message.isSome && message.Target.isSome then
    match message.Target with
    | some target =>
      if target.type = TypeTargetDirect then handleSendDirectMessage s conn message
      else if target.type = TypeTargetGroup then handlerSendGroupMessage s conn message
      else s
    | none => s
  else
    pushSend s conn
      { message with
        Response := some { Status := false, Message := ResponseMessageInvalidPayload } }

/-- `SetActivity` (`user.go` lines 156-161): emit an activity event on the
user's activity stream. -/
def SetActivity (s : SystemState) (conn : Nat) (activityType : String)
    (message : Option Message) : SystemState :=
  updUser s conn
    (fun u => { u with activity := u.activity ++ [{ type := activityType, Message := message }] })

/-- One iteration of `ReadPump`'s dispatch switch (`user.go` lines 82-105):
emit the activity event tagged with the command kind, then run the handler;
the three channel-scoped commands are guarded by `user.channel != nil` and
their handlers are skipped (after the activity event) when the user has not
connected.  An unknown command does nothing. -/
def dispatchMessage (s : SystemState) (conn : Nat) (message : Message) :
    SystemState :=
  match mapLookup s.users conn with
  | none => s
  | some user =>
    if message.Command = CommandUserConnect then
      handleUserConnect
        (SetActivity s conn TypeUserActivityChannelConnect (some message)) conn message
    else if message.Command = CommandMessageSend then
      let s1 := SetActivity s conn TypeUserActivityMessageSend (some message)
      if user.channel.isSome then handleSendMessage s1 conn message else s1
    else if message.Command = CommandGroupJoin then
      let s1 := SetActivity s conn TypeUserActivityGroupJoin (some message)
      if user.channel.isSome then handleGroupJoin s1 conn message else s1
    else if message.Command = CommandGroupLeave then
      let s1 := SetActivity s conn TypeUserActivityGroupLeave (some message)
      if user.channel.isSome then handleGroupLeave s1 conn message else s1
    else s

/-! ## Association-map lemmas -/

theorem mapLookup_cons {κ α : Type} [DecidableEq κ] (a : κ) (b : α) (rest : List (κ × α)) (k : κ) :
    mapLookup ((a, b) :: rest) k = if k = a then some b else mapLookup rest k := rfl

theorem mapLookup_mapUpdate {κ α : Type} [DecidableEq κ] (m : List (κ × α)) (k k' : κ) (f : α → α) :
    mapLookup (mapUpdate m k f) k' =
      if k' = k then (mapLookup m k').map f else mapLookup m k' := by
  induction m with
  | nil => simp [mapLookup, mapUpdate]
  | cons p rest ih =>
    obtain ⟨a, b⟩ := p
    simp only [mapUpdate, List.map_cons] at ih ⊢
    by_cases hak : a = k
    · subst hak
      rw [if_pos rfl]
      by_cases hk' : k' = a
      · subst hk'
        simp [mapLookup_cons]
      · simp [mapLookup_cons, hk', ih]
    · rw [if_neg hak]
      by_cases hk' : k' = a
      · subst hk'
        simp [mapLookup_cons, hak]
      · simp [mapLookup_cons, hk', ih]


theorem mapLookup_append {κ α : Type} [DecidableEq κ] (m₁ m₂ : List (κ × α)) (k : κ) :
    mapLookup (m₁ ++ m₂) k =
      match mapLookup m₁ k with
      | some v => some v
      | none => mapLookup m₂ k := by
  induction m₁ with
  | nil => simp [mapLookup]
  | cons p rest ih =>
    obtain ⟨a, b⟩ := p
    by_cases hk : k = a <;> simp [mapLookup_cons, hk, ih]

theorem mapLookup_mapInsert {κ α : Type} [DecidableEq κ] (m : List (κ × α)) (k k' : κ) (v : α) :
    mapLookup (mapInsert m k v) k' =
      if k' = k then some v else mapLookup m k' := by
  unfold mapInsert
  by_cases h : (mapLookup m k).isSome
  · obtain ⟨w, hw⟩ := Option.isSome_iff_exists.mp h
    rw [if_pos h, mapLookup_mapUpdate]
    by_cases hk : k' = k
    · subst hk
      simp [hw]
    · simp [hk]
  · rw [if_neg h, mapLookup_append]
    rw [Option.not_isSome_iff_eq_none] at h
    by_cases hk : k' = k
    · subst hk
      simp [h, mapLookup_cons]
    · cases hm : mapLookup m k' <;> simp [hk, hm, mapLookup_cons, mapLookup]

theorem mapDelete_cons_eq {κ α : Type} [DecidableEq κ] (a : κ) (b : α) (rest : List (κ × α)) (k : κ) (h : a = k) :
    mapDelete ((a, b) :: rest) k = mapDelete rest k := by
  simp [mapDelete, List.filter_cons, h]

theorem mapDelete_cons_ne {κ α : Type} [DecidableEq κ] (a : κ) (b : α) (rest : List (κ × α)) (k : κ) (h : ¬ a = k) :
    mapDelete ((a, b) :: rest) k = (a, b) :: mapDelete rest k := by
  simp [mapDelete, List.filter_cons, h]

theorem mapLookup_mapDelete {κ α : Type} [DecidableEq κ] (m : List (κ × α)) (k k' : κ) :
    mapLookup (mapDelete m k) k' =
      if k' = k then none else mapLookup m k' := by
  induction m with
  | nil => simp [mapLookup, mapDelete]
  | cons p rest ih =>
    obtain ⟨a, b⟩ := p
    by_cases hak : a = k
    · rw [mapDelete_cons_eq a b rest k hak, ih]
      by_cases hk' : k' = k
      · simp [hk']
      · have hk'a : ¬ k' = a := fun hh => hk' (hh.trans hak)
        simp [hk', hk'a, mapLookup_cons]
    · rw [mapDelete_cons_ne a b rest k hak, mapLookup_cons, ih, mapLookup_cons]
      by_cases hk' : k' = a
      · have hkk : ¬ k' = k := fun hh => hak (hk'.symm.trans hh)
        simp [hk', hkk, hak]
      · by_cases hkk : k' = k
        · have hka : ¬ k = a := fun hh => hak hh.symm
          simp [hk', hkk, hka]
        · simp [hk', hkk]

theorem mapDelete_of_lookup_none {κ α : Type} [DecidableEq κ] (m : List (κ × α)) (k : κ)
    (h : mapLookup m k = none) : mapDelete m k = m := by
  induction m with
  | nil => rfl
  | cons p rest ih =>
    obtain ⟨a, b⟩ := p
    rw [mapLookup_cons] at h
    by_cases hk : k = a
    · simp [hk] at h
    · simp only [hk, if_false] at h
      have hak : ¬(a = k) := fun hh => hk hh.symm
      rw [mapDelete_cons_ne a b rest k hak, ih h]

theorem countKey_cons {κ α : Type} [DecidableEq κ] (a : κ) (b : α) (rest : List (κ × α)) (k : κ) :
    countKey ((a, b) :: rest) k = countKey rest k + if a = k then 1 else 0 := by
  simp [countKey, List.countP_cons]

theorem countKey_eq_zero_of_lookup_none {κ α : Type} [DecidableEq κ] (m : List (κ × α)) (k : κ)
    (h : mapLookup m k = none) : countKey m k = 0 := by
  induction m with
  | nil => rfl
  | cons p rest ih =>
    obtain ⟨a, b⟩ := p
    rw [mapLookup_cons] at h
    by_cases hk : k = a
    · simp [hk] at h
    · simp only [hk, if_false] at h
      have hak : ¬(a = k) := fun hh => hk hh.symm
      simp [countKey_cons, hak, ih h]

theorem countKey_pos_of_lookup_isSome {κ α : Type} [DecidableEq κ] (m : List (κ × α)) (k : κ)
    (h : (mapLookup m k).isSome) : 1 ≤ countKey m k := by
  induction m with
  | nil => simp [mapLookup] at h
  | cons p rest ih =>
    obtain ⟨a, b⟩ := p
    rw [mapLookup_cons] at h
    by_cases hk : k = a
    · simp [countKey_cons, hk]
    · simp only [hk, if_false] at h
      have := ih h
      rw [countKey_cons]
      omega

theorem countKey_append {κ α : Type} [DecidableEq κ] (m₁ m₂ : List (κ × α)) (k : κ) :
    countKey (m₁ ++ m₂) k = countKey m₁ k + countKey m₂ k := by
  simp [countKey, List.countP_append]

/-! ## State-update lemmas -/

theorem channels_updUser (s : SystemState) (conn : Nat) (f : User → User) :
    (updUser s conn f).channels = s.channels := rfl

theorem groupStore_updUser (s : SystemState) (conn : Nat) (f : User → User) :
    (updUser s conn f).groupStore = s.groupStore := rfl

theorem nextInst_updUser (s : SystemState) (conn : Nat) (f : User → User) :
    (updUser s conn f).nextInst = s.nextInst := rfl

theorem mapLookup_users_updUser (s : SystemState) (conn conn' : Nat) (f : User → User) :
    mapLookup (updUser s conn f).users conn' =
      if conn' = conn then (mapLookup s.users conn').map f
      else mapLookup s.users conn' := by
  simp [updUser, mapLookup_mapUpdate]

theorem users_updChannel (s : SystemState) (chID : String) (f : Channel → Channel) :
    (updChannel s chID f).users = s.users := rfl

theorem groupStore_updChannel (s : SystemState) (chID : String) (f : Channel → Channel) :
    (updChannel s chID f).groupStore = s.groupStore := rfl

theorem nextInst_updChannel (s : SystemState) (chID : String) (f : Channel → Channel) :
    (updChannel s chID f).nextInst = s.nextInst := rfl

theorem mapLookup_channels_updChannel (s : SystemState) (chID chID' : String)
    (f : Channel → Channel) :
    mapLookup (updChannel s chID f).channels chID' =
      if chID' = chID then (mapLookup s.channels chID').map f
      else mapLookup s.channels chID' := by
  simp [updChannel, mapLookup_mapUpdate]

theorem users_updGroup (s : SystemState) (inst : Nat) (f : Group → Group) :
    (updGroup s inst f).users = s.users := rfl

theorem channels_updGroup (s : SystemState) (inst : Nat) (f : Group → Group) :
    (updGroup s inst f).channels = s.channels := rfl

theorem nextInst_updGroup (s : SystemState) (inst : Nat) (f : Group → Group) :
    (updGroup s inst f).nextInst = s.nextInst := rfl

theorem mapLookup_groupStore_updGroup (s : SystemState) (inst inst' : Nat)
    (f : Group → Group) :
    mapLookup (updGroup s inst f).groupStore inst' =
      if inst' = inst then (mapLookup s.groupStore inst').map f
      else mapLookup s.groupStore inst' := by
  simp [updGroup, mapLookup_mapUpdate]

theorem userSend_pushSend_self (s : SystemState) (conn : Nat) (m : Message)
    (h : (mapLookup s.users conn).isSome) :
    userSend (pushSend s conn m) conn = userSend s conn ++ [m] := by
  obtain ⟨u, hu⟩ := Option.isSome_iff_exists.mp h
  simp [pushSend, userSend, mapLookup_users_updUser, hu]

theorem userSend_pushSend_ne (s : SystemState) (conn conn' : Nat) (m : Message)
    (h : conn' ≠ conn) : userSend (pushSend s conn m) conn' = userSend s conn' := by
  simp [pushSend, userSend, mapLookup_users_updUser, h]

theorem userSend_SetActivity (s : SystemState) (conn conn' : Nat) (a : String)
    (m : Option Message) :
    userSend (SetActivity s conn a m) conn' = userSend s conn' := by
  by_cases h : conn' = conn
  · subst h
    simp only [SetActivity, userSend, mapLookup_users_updUser, if_pos rfl]
    cases hm : mapLookup s.users conn' <;> simp [hm]
  · simp [SetActivity, userSend, mapLookup_users_updUser, h]

theorem mapLookup_users_SetActivity (s : SystemState) (conn conn' : Nat) (a : String)
    (m : Option Message) :
    mapLookup (SetActivity s conn a m).users conn' =
      if conn' = conn then
        (mapLookup s.users conn').map
          (fun u => { u with activity := u.activity ++ [{ type := a, Message := m }] })
      else mapLookup s.users conn' := by
  simp [SetActivity, mapLookup_users_updUser]

theorem mapLookup_users_pushSend (s : SystemState) (conn conn' : Nat) (m : Message) :
    mapLookup (pushSend s conn m).users conn' =
      if conn' = conn then
        (mapLookup s.users conn').map (fun u => { u with send := u.send ++ [m] })
      else mapLookup s.users conn' := by
  simp [pushSend, mapLookup_users_updUser]

theorem channels_pushSend (s : SystemState) (conn : Nat) (m : Message) :
    (pushSend s conn m).channels = s.channels := rfl

theorem groupStore_pushSend (s : SystemState) (conn : Nat) (m : Message) :
    (pushSend s conn m).groupStore = s.groupStore := rfl

theorem nextInst_pushSend (s : SystemState) (conn : Nat) (m : Message) :
    (pushSend s conn m).nextInst = s.nextInst := rfl

theorem channels_SetActivity (s : SystemState) (conn : Nat) (a : String)
    (m : Option Message) : (SetActivity s conn a m).channels = s.channels := rfl

theorem groupStore_SetActivity (s : SystemState) (conn : Nat) (a : String)
    (m : Option Message) : (SetActivity s conn a m).groupStore = s.groupStore := rfl

theorem nextInst_SetActivity (s : SystemState) (conn : Nat) (a : String)
    (m : Option Message) : (SetActivity s conn a m).nextInst = s.nextInst := rfl

theorem channels_setGroupStore (t : SystemState) (gs : List (Nat × Group)) (ni : Nat) :
    ({ t with groupStore := gs, nextInst := ni } : SystemState).channels = t.channels := rfl

/-! ## Fan-out lemmas -/

/-- Whether the fan-out loop running on state `s` with sender id `senderID`
pushes a copy to connection `tconn` when visiting the membership entry `p`. -/
def pushesTo (s : SystemState) (senderID : String) (tconn : Nat) (p : String × Nat) :
    Bool :=
  decide (p.2 = tconn) &&
    match mapLookup s.users p.2 with
    | some member => decide (member.ID ≠ senderID)
    | none => false

theorem pushesTo_pushSend (s : SystemState) (c : Nat) (m : Message) (senderID : String)
    (tconn : Nat) (p : String × Nat) :
    pushesTo (pushSend s c m) senderID tconn p = pushesTo s senderID tconn p := by
  unfold pushesTo
  rw [mapLookup_users_pushSend]
  by_cases h : p.2 = c
  · rw [if_pos h]
    cases hm : mapLookup s.users p.2 <;> simp [hm]
  · rw [if_neg h]

theorem pushesTo_SetActivity (s : SystemState) (c : Nat) (a : String)
    (om : Option Message) (senderID : String) (tconn : Nat) (p : String × Nat) :
    pushesTo (SetActivity s c a om) senderID tconn p = pushesTo s senderID tconn p := by
  unfold pushesTo SetActivity
  rw [mapLookup_users_updUser]
  by_cases h : p.2 = c
  · rw [if_pos h]
    cases hm : mapLookup s.users p.2 <;> simp [hm]
  · rw [if_neg h]

theorem broadcastToMembers_cons (s : SystemState) (senderID : String)
    (p : String × Nat) (rest : List (String × Nat)) (m : Message) :
    broadcastToMembers s senderID (p :: rest) m =
      broadcastToMembers
        (match mapLookup s.users p.2 with
         | some member => if member.ID ≠ senderID then pushSend s p.2 m else s
         | none => s)
        senderID rest m := rfl

theorem users_isSome_pushSend (s : SystemState) (c c' : Nat) (m : Message) :
    (mapLookup (pushSend s c m).users c').isSome = (mapLookup s.users c').isSome := by
  rw [mapLookup_users_pushSend]
  by_cases h : c' = c
  · rw [if_pos h]
    cases hm : mapLookup s.users c' <;> simp [hm]
  · rw [if_neg h]

theorem users_isSome_broadcastToMembers (members : List (String × Nat))
    (s : SystemState) (senderID : String) (m : Message) (c : Nat) :
    (mapLookup (broadcastToMembers s senderID members m).users c).isSome =
      (mapLookup s.users c).isSome := by
  induction members generalizing s with
  | nil => rfl
  | cons p rest ih =>
    rw [broadcastToMembers_cons]
    cases hm : mapLookup s.users p.2 with
    | none => rw [ih]
    | some member =>
      dsimp only
      by_cases hne : member.ID ≠ senderID
      · rw [if_pos hne, ih, users_isSome_pushSend]
      · rw [if_neg hne, ih]

/-- The effect of the fan-out loop on one outbound queue: connection `tconn`
receives one copy per membership entry that pushes to it. -/
theorem userSend_broadcastToMembers (members : List (String × Nat)) (s : SystemState)
    (senderID : String) (m : Message) (tconn : Nat) :
    userSend (broadcastToMembers s senderID members m) tconn =
      userSend s tconn ++
        List.replicate (members.countP (pushesTo s senderID tconn)) m := by
  induction members generalizing s with
  | nil => simp [broadcastToMembers]
  | cons p rest ih =>
    rw [broadcastToMembers_cons, List.countP_cons]
    cases hm : mapLookup s.users p.2 with
    | none =>
      have hfalse : pushesTo s senderID tconn p = false := by
        unfold pushesTo
        rw [hm]
        simp
      rw [ih, hfalse]
      simp
    | some member =>
      dsimp only
      by_cases hne : member.ID ≠ senderID
      · rw [if_pos hne, ih]
        have hcong : rest.countP (pushesTo (pushSend s p.2 m) senderID tconn) =
            rest.countP (pushesTo s senderID tconn) := by
          apply List.countP_congr
          intro x _
          rw [pushesTo_pushSend]
        rw [hcong]
        by_cases hc : p.2 = tconn
        · have hpush : pushesTo s senderID tconn p = true := by
            unfold pushesTo
            rw [hm]
            simp [hc, hne]
          have hsome : (mapLookup s.users tconn).isSome := by
            rw [← hc, hm]
            rfl
          rw [hc] at hm ⊢
          rw [userSend_pushSend_self s tconn m hsome, hpush]
          simp [List.replicate_succ']
          rw [← List.replicate_succ, List.replicate_succ']
        · have hpush : pushesTo s senderID tconn p = false := by
            unfold pushesTo
            simp [hc]
          rw [userSend_pushSend_ne s p.2 tconn m (fun hh => hc hh.symm), hpush]
          simp
      · have hpush : pushesTo s senderID tconn p = false := by
          unfold pushesTo
          rw [hm]
          simp at hne
          simp [hne]
        rw [if_neg hne, ih, hpush]
        simp

/-- A counting helper: when the second components of `l` are distinct, a
predicate that holds only at second component `tconn` and holds at some
element of `l` is satisfied exactly once. -/
theorem countP_eq_one_of_mem_unique {l : List (String × Nat)}
    {p : String × Nat → Bool} (tconn : Nat)
    (hnd : (l.map Prod.snd).Nodup)
    (himp : ∀ x, p x = true → x.2 = tconn)
    {x : String × Nat} (hx : x ∈ l) (hpx : p x = true) :
    l.countP p = 1 := by
  induction l with
  | nil => cases hx
  | cons a rest ih =>
    rw [List.map_cons, List.nodup_cons] at hnd
    by_cases hpa : p a = true
    · have hzero : rest.countP p = 0 := by
        rw [List.countP_eq_zero]
        intro y hy hpy
        have h1 : y.2 = tconn := himp y hpy
        have h2 : a.2 = tconn := himp a hpa
        have h3 : a.2 ∈ rest.map Prod.snd := by
          have hmem := List.mem_map_of_mem Prod.snd hy
          rwa [h1, ← h2] at hmem
        exact hnd.1 h3
      rw [List.countP_cons, hzero, hpa]
      simp
    · have hxrest : x ∈ rest := by
        rcases List.mem_cons.mp hx with h | h
        · rw [h] at hpx
          exact absurd hpx hpa
        · exact h
      rw [List.countP_cons]
      simp [hpa, ih hnd.2 hxrest]

/-! ## Dispatch step lemmas -/

theorem dispatchMessage_connect (s : SystemState) (conn : Nat) (message : Message)
    (user : User)
    (h_user : mapLookup s.users conn = some user)
    (h_cmd : message.Command = CommandUserConnect) :
    dispatchMessage s conn message =
      handleUserConnect (SetActivity s conn TypeUserActivityChannelConnect (some message))
        conn message := by
  unfold dispatchMessage
  rw [h_user]
  dsimp only
  rw [h_cmd, if_pos rfl]

theorem dispatchMessage_send (s : SystemState) (conn : Nat) (message : Message)
    (user : User) (chID : String)
    (h_user : mapLookup s.users conn = some user)
    (h_cmd : message.Command = CommandMessageSend)
    (h_chan : user.channel = some chID) :
    dispatchMessage s conn message =
      handleSendMessage (SetActivity s conn TypeUserActivityMessageSend (some message))
        conn message := by
  unfold dispatchMessage
  rw [h_user]
  dsimp only
  rw [h_cmd, if_neg (by decide : ¬(CommandMessageSend = CommandUserConnect)),
    if_pos rfl, h_chan]
  simp

theorem dispatchMessage_groupJoin (s : SystemState) (conn : Nat) (message : Message)
    (user : User) (chID : String)
    (h_user : mapLookup s.users conn = some user)
    (h_cmd : message.Command = CommandGroupJoin)
    (h_chan : user.channel = some chID) :
    dispatchMessage s conn message =
      handleGroupJoin (SetActivity s conn TypeUserActivityGroupJoin (some message))
        conn message := by
  unfold dispatchMessage
  rw [h_user]
  dsimp only
  rw [h_cmd, if_neg (by decide : ¬(CommandGroupJoin = CommandUserConnect)),
    if_neg (by decide : ¬(CommandGroupJoin = CommandMessageSend)), if_pos rfl, h_chan]
  simp

theorem dispatchMessage_groupLeave (s : SystemState) (conn : Nat) (message : Message)
    (user : User) (chID : String)
    (h_user : mapLookup s.users conn = some user)
    (h_cmd : message.Command = CommandGroupLeave)
    (h_chan : user.channel = some chID) :
    dispatchMessage s conn message =
      handleGroupLeave (SetActivity s conn TypeUserActivityGroupLeave (some message))
        conn message := by
  unfold dispatchMessage
  rw [h_user]
  dsimp only
  rw [h_cmd, if_neg (by decide : ¬(CommandGroupLeave = CommandUserConnect)),
    if_neg (by decide : ¬(CommandGroupLeave = CommandMessageSend)),
    if_neg (by decide : ¬(CommandGroupLeave = CommandGroupJoin)), if_pos rfl, h_chan]
  simp

theorem handleSendMessage_direct (t : SystemState) (conn : Nat) (message : Message)
    (target : TargetInfo)
    (h_body : message.Message.isSome)
    (h_target : message.Target = some target)
    (h_ttype : target.type = TypeTargetDirect) :
    handleSendMessage t conn message = handleSendDirectMessage t conn message := by
  unfold handleSendMessage
  rw [h_target]
  simp only [h_body, Option.isSome_some, Bool.and_self, if_pos rfl]
  rw [h_ttype]
  simp

theorem handleSendMessage_group (t : SystemState) (conn : Nat) (message : Message)
    (target : TargetInfo)
    (h_body : message.Message.isSome)
    (h_target : message.Target = some target)
    (h_ttype : target.type = TypeTargetGroup) :
    handleSendMessage t conn message = handlerSendGroupMessage t conn message := by
  unfold handleSendMessage
  rw [h_target]
  simp only [h_body, Option.isSome_some, Bool.and_self, if_pos rfl]
  rw [h_ttype, if_neg (by decide : ¬(TypeTargetGroup = TypeTargetDirect))]
  simp

theorem handlerSendGroupMessage_found (t : SystemState) (conn : Nat) (message : Message)
    (user : User) (chID : String) (ch : Channel) (target : TargetInfo) (tg : GroupInfo)
    (inst : Nat) (g : Group)
    (h_user : mapLookup t.users conn = some user)
    (h_chan : user.channel = some chID)
    (h_ch : mapLookup t.channels chID = some ch)
    (h_target : message.Target = some target)
    (h_tg : target.Group = some tg)
    (h_find : Channel.findGroupByID ch tg.id = some inst)
    (h_g : mapLookup t.groupStore inst = some g) :
    handlerSendGroupMessage t conn message =
      pushSend
        (broadcastToMembers t user.ID g.users
          { message with
            User := some (userInfoOf user),
            Target := some { target with Group := some (groupInfoOf g) } })
        conn
        { message with
          User := some (userInfoOf user),
          Target := some { target with Group := some (groupInfoOf g) },
          Response := some { Status := true, Message := ResponseMessageSuccess } } := by
  unfold handlerSendGroupMessage
  rw [h_user]
  dsimp only
  rw [h_target]
  dsimp only
  rw [h_tg]
  dsimp only
  rw [h_chan]
  dsimp only
  rw [h_ch]
  dsimp only
  rw [h_find]
  show (match mapLookup t.groupStore inst with
    | none => t
    | some groupTarget =>
      pushSend
        (broadcastToMembers t user.ID groupTarget.users
          { message with
            User := some (userInfoOf user),
            Target := some { target with Group := some (groupInfoOf groupTarget) } })
        conn
        { message with
          User := some (userInfoOf user),
          Target := some { target with Group := some (groupInfoOf groupTarget) },
          Response := some { Status := true, Message := ResponseMessageSuccess } }) = _
  rw [h_g]

theorem handleSendDirectMessage_found (t : SystemState) (conn : Nat) (message : Message)
    (user : User) (chID : String) (ch : Channel) (target : TargetInfo) (tu : UserInfo)
    (tconn : Nat) (userTarget : User)
    (h_user : mapLookup t.users conn = some user)
    (h_chan : user.channel = some chID)
    (h_ch : mapLookup t.channels chID = some ch)
    (h_target : message.Target = some target)
    (h_tu : target.User = some tu)
    (h_find : Channel.findUserByID ch tu.id = some tconn)
    (h_targetUser : mapLookup t.users tconn = some userTarget) :
    handleSendDirectMessage t conn message =
      pushSend (pushSend t tconn message) conn
        { message with
          User := some (userInfoOf user),
          Target := some { target with User := some (userInfoOf userTarget) },
          Response := some { Status := true, Message := ResponseMessageSuccess } } := by
  unfold handleSendDirectMessage
  rw [h_user]
  dsimp only
  rw [h_target]
  dsimp only
  rw [h_tu]
  dsimp only
  rw [h_chan]
  dsimp only
  rw [h_ch]
  dsimp only
  rw [h_find]
  dsimp only
  rw [h_targetUser]

theorem handleSendDirectMessage_miss (t : SystemState) (conn : Nat) (message : Message)
    (user : User) (chID : String) (ch : Channel) (target : TargetInfo) (tu : UserInfo)
    (h_user : mapLookup t.users conn = some user)
    (h_chan : user.channel = some chID)
    (h_ch : mapLookup t.channels chID = some ch)
    (h_target : message.Target = some target)
    (h_tu : target.User = some tu)
    (h_find : Channel.findUserByID ch tu.id = none) :
    handleSendDirectMessage t conn message =
      pushSend t conn
        { message with
          Response := some { Status := false,
                             Message := ResponseMessageUserTargetNotConnected },
          User := some (userInfoOf user) } := by
  unfold handleSendDirectMessage
  rw [h_user]
  dsimp only
  rw [h_target]
  dsimp only
  rw [h_tu]
  dsimp only
  rw [h_chan]
  dsimp only
  rw [h_ch]
  dsimp only
  rw [h_find]

theorem handlerSendGroupMessage_miss (t : SystemState) (conn : Nat) (message : Message)
    (user : User) (chID : String) (ch : Channel) (target : TargetInfo) (tg : GroupInfo)
    (h_user : mapLookup t.users conn = some user)
    (h_chan : user.channel = some chID)
    (h_ch : mapLookup t.channels chID = some ch)
    (h_target : message.Target = some target)
    (h_tg : target.Group = some tg)
    (h_find : Channel.findGroupByID ch tg.id = none) :
    handlerSendGroupMessage t conn message = t := by
  unfold handlerSendGroupMessage
  rw [h_user]
  dsimp only
  rw [h_target]
  dsimp only
  rw [h_tg]
  dsimp only
  rw [h_chan]
  dsimp only
  rw [h_ch]
  dsimp only
  rw [h_find]
  rfl

theorem handleSendMessage_invalid (t : SystemState) (conn : Nat) (message : Message)
    (h_invalid : message.Message = none ∨ message.Target = none) :
    handleSendMessage t conn message =
      pushSend t conn
        { message with
          Response := some { Status := false, Message := ResponseMessageInvalidPayload } } := by
  unfold handleSendMessage
  have hfalse : (message.Message.isSome && message.Target.isSome) = false := by
    rcases h_invalid with h | h <;> rw [h] <;> simp
  rw [hfalse]
  simp

theorem handleUserConnect_invalid (t : SystemState) (conn : Nat) (message : Message)
    (user : User)
    (h_user : mapLookup t.users conn = some user)
    (h_invalid : message.User = none ∨ message.Channel = none) :
    handleUserConnect t conn message =
      pushSend t conn
        { message with
          Response := some { Status := false, Message := ResponseMessageInvalidPayload } } := by
  unfold handleUserConnect
  rw [h_user]
  dsimp only
  rcases h_invalid with h | h
  · rw [h]
  · rw [h]
    cases hu : message.User <;> rfl

theorem handleGroupJoin_noGroup (t : SystemState) (conn : Nat) (message : Message)
    (user : User)
    (h_user : mapLookup t.users conn = some user)
    (h_mg : message.Group = none) :
    handleGroupJoin t conn message = t := by
  unfold handleGroupJoin
  rw [h_user]
  dsimp only
  rw [h_mg]

theorem handleGroupLeave_noGroup (t : SystemState) (conn : Nat) (message : Message)
    (user : User)
    (h_user : mapLookup t.users conn = some user)
    (h_mg : message.Group = none) :
    handleGroupLeave t conn message =
      pushSend t conn
        { message with
          Response := some { Status := false, Message := ResponseMessageInvalidPayload } } := by
  unfold handleGroupLeave
  rw [h_user]
  dsimp only
  rw [h_mg]

theorem handleGroupLeave_found (t : SystemState) (conn : Nat) (message : Message)
    (user : User) (uid : String) (chID : String) (ch : Channel) (mg : GroupInfo)
    (inst : Nat) (g : Group)
    (h_uid : user.ID = uid)
    (h_user : mapLookup t.users conn = some user)
    (h_mg : message.Group = some mg)
    (h_chan : user.channel = some chID)
    (h_ch : mapLookup t.channels chID = some ch)
    (h_find : Channel.findGroupByID ch mg.id = some inst)
    (h_store : mapLookup t.groupStore inst = some g) :
    handleGroupLeave t conn message =
      pushSend
        (if (Group.handleUnregisterUser g uid).users.length = 0 then
          updChannel
            (updGroup
              (updUser t conn (fun u => { u with groups := mapDelete u.groups uid }))
              g.inst (fun _ => Group.handleUnregisterUser g uid))
            chID (fun c => c.handleUnregisterGroup (Group.handleUnregisterUser g uid))
        else
          updGroup
            (updUser t conn (fun u => { u with groups := mapDelete u.groups uid }))
            g.inst (fun _ => Group.handleUnregisterUser g uid))
        conn
        { message with
          User := some (userInfoOf user),
          Group := some (groupInfoOf (Group.handleUnregisterUser g uid)),
          Response := some { Status := true, Message := ResponseMessageSuccess } } := by
  unfold handleGroupLeave
  rw [h_user]
  dsimp only
  rw [h_mg]
  dsimp only
  rw [h_chan]
  dsimp only
  rw [h_ch]
  dsimp only
  rw [h_find]
  show (match mapLookup t.groupStore inst with
    | none => t
    | some group =>
      pushSend
        (if (Group.handleUnregisterUser group user.ID).users.length = 0 then
          updChannel
            (updGroup
              (updUser t conn (fun u => { u with groups := mapDelete u.groups user.ID }))
              group.inst (fun _ => Group.handleUnregisterUser group user.ID))
            chID (fun c => c.handleUnregisterGroup (Group.handleUnregisterUser group user.ID))
        else
          updGroup
            (updUser t conn (fun u => { u with groups := mapDelete u.groups user.ID }))
            group.inst (fun _ => Group.handleUnregisterUser group user.ID))
        conn
        { message with
          User := some (userInfoOf user),
          Group := some (groupInfoOf (Group.handleUnregisterUser group user.ID)),
          Response := some { Status := true, Message := ResponseMessageSuccess } }) = _
  rw [h_store, h_uid]

theorem handleGroupJoin_new (t : SystemState) (conn : Nat) (message : Message)
    (user : User) (chID : String) (ch : Channel) (mg : GroupInfo)
    (h_user : mapLookup t.users conn = some user)
    (h_mg : message.Group = some mg)
    (h_chan : user.channel = some chID)
    (h_ch : mapLookup t.channels chID = some ch)
    (h_find : Channel.findGroupByID ch mg.id = none) :
    handleGroupJoin t conn message =
      pushSend
        (updUser
          (updGroup
            (updChannel
              { t with
                groupStore := t.groupStore ++
                  [(t.nextInst, NewGroup t.nextInst mg.id mg.name mg.additionalInfo)],
                nextInst := t.nextInst + 1 }
              chID
              (fun c => c.handleRegisterGroup
                (NewGroup t.nextInst mg.id mg.name mg.additionalInfo)))
            t.nextInst
            (fun gg => gg.handleRegisterUser user.ID conn))
          conn
          (fun u => { u with groups := mapInsert u.groups mg.id t.nextInst }))
        conn
        { message with
          User := some (userInfoOf user),
          Message := some { type := TypeMessageText, Text := MessageGroupJoin },
          Response := some { Status := true, Message := ResponseMessageSuccess } } := by
  unfold handleGroupJoin
  rw [h_user]
  dsimp only
  rw [h_mg]
  dsimp only
  rw [h_chan]
  dsimp only
  rw [h_ch]
  dsimp only
  rw [h_find]
  rfl

/-! ## Claims -/

/-- C1: For every group-targeted send command by a connected user, when the
group id resolves to an existing group in the user's channel, a copy of the
message envelope is enqueued on the outbound queue of every member of that
group except the sender, and the sender receives exactly one success
acknowledgement and no copy of its own broadcast. -/
theorem groupSend_broadcasts_to_members_and_acks_sender
    (s : SystemState) (conn : Nat) (message : Message) (user : User) (chID : String)
    (ch : Channel) (target : TargetInfo) (tg : GroupInfo) (inst : Nat) (g : Group)
    (h_user : mapLookup s.users conn = some user)
    (h_chan : user.channel = some chID)
    (h_ch : mapLookup s.channels chID = some ch)
    (h_cmd : message.Command = CommandMessageSend)
    (h_body : message.Message.isSome)
    (h_target : message.Target = some target)
    (h_ttype : target.type = TypeTargetGroup)
    (h_tg : target.Group = some tg)
    (h_find : Channel.findGroupByID ch tg.id = some inst)
    (h_g : mapLookup s.groupStore inst = some g) :
    userSend (dispatchMessage s conn message) conn =
      userSend s conn ++
        [{ message with
           User := some (userInfoOf user),
           Target := some { target with Group := some (groupInfoOf g) },
           Response := some { Status := true, Message := ResponseMessageSuccess } }] ∧
    ∀ uid0 tconn tu, (uid0, tconn) ∈ g.users → tconn ≠ conn →
      mapLookup s.users tconn = some tu → tu.ID ≠ user.ID →
      (g.users.map Prod.snd).Nodup →
      userSend (dispatchMessage s conn message) tconn =
        userSend s tconn ++
          [{ message with
             User := some (userInfoOf user),
             Target := some { target with Group := some (groupInfoOf g) } }] := by
  have huser1 : mapLookup
      (SetActivity s conn TypeUserActivityMessageSend (some message)).users conn =
      some { user with activity := user.activity ++
        [{ type := TypeUserActivityMessageSend, Message := some message }] } := by
    rw [mapLookup_users_SetActivity, if_pos rfl, h_user]
    rfl
  have hdisp : dispatchMessage s conn message =
      pushSend
        (broadcastToMembers (SetActivity s conn TypeUserActivityMessageSend (some message))
          user.ID g.users
          { message with
            User := some (userInfoOf user),
            Target := some { target with Group := some (groupInfoOf g) } })
        conn
        { message with
          User := some (userInfoOf user),
          Target := some { target with Group := some (groupInfoOf g) },
          Response := some { Status := true, Message := ResponseMessageSuccess } } := by
    rw [dispatchMessage_send s conn message user chID h_user h_cmd h_chan,
      handleSendMessage_group _ conn message target h_body h_target h_ttype,
      handlerSendGroupMessage_found _ conn message _ chID ch target tg inst g
        huser1 h_chan h_ch h_target h_tg h_find h_g]
    rfl
  constructor
  · rw [hdisp]
    have hsome2 : (mapLookup
        (broadcastToMembers (SetActivity s conn TypeUserActivityMessageSend (some message))
          user.ID g.users
          { message with
            User := some (userInfoOf user),
            Target := some { target with Group := some (groupInfoOf g) } }).users
        conn).isSome := by
      rw [users_isSome_broadcastToMembers, mapLookup_users_SetActivity, if_pos rfl, h_user]
      rfl
    rw [userSend_pushSend_self _ conn _ hsome2, userSend_broadcastToMembers]
    have hzero : g.users.countP
        (pushesTo (SetActivity s conn TypeUserActivityMessageSend (some message))
          user.ID conn) = 0 := by
      rw [List.countP_eq_zero]
      intro p hp
      unfold pushesTo
      by_cases hpc : p.2 = conn
      · rw [hpc, mapLookup_users_SetActivity, if_pos rfl, h_user]
        simp
      · rw [mapLookup_users_SetActivity, if_neg hpc]
        simp [hpc]
    rw [hzero, userSend_SetActivity]
    simp
  · intro uid0 tconn tu hmem hne h_tu h_id hnodup
    rw [hdisp, userSend_pushSend_ne _ conn tconn _ hne, userSend_broadcastToMembers]
    have hone : g.users.countP
        (pushesTo (SetActivity s conn TypeUserActivityMessageSend (some message))
          user.ID tconn) = 1 := by
      refine countP_eq_one_of_mem_unique tconn hnodup ?_ hmem ?_
      · intro x hx
        unfold pushesTo at hx
        rw [Bool.and_eq_true] at hx
        exact of_decide_eq_true hx.1
      · unfold pushesTo
        have hl : mapLookup
            (SetActivity s conn TypeUserActivityMessageSend (some message)).users tconn =
            some tu := by
          rw [mapLookup_users_SetActivity, if_neg hne]
          exact h_tu
        dsimp only
        rw [hl]
        simp [h_id]
    rw [hone, userSend_SetActivity]
    simp

/-- C2: For every direct-targeted send command by a connected user, when the
target user id resolves to a user in the sender's channel, exactly one copy
of the envelope lands on the target's outbound queue, the sender receives
exactly one success acknowledgement (status true, code success), and the
target receives nothing else from this command. -/
theorem directSend_delivers_one_copy_and_acks_sender
    (s : SystemState) (conn : Nat) (message : Message) (user : User) (chID : String)
    (ch : Channel) (target : TargetInfo) (tu : UserInfo) (tconn : Nat) (userTarget : User)
    (h_user : mapLookup s.users conn = some user)
    (h_chan : user.channel = some chID)
    (h_ch : mapLookup s.channels chID = some ch)
    (h_cmd : message.Command = CommandMessageSend)
    (h_body : message.Message.isSome)
    (h_target : message.Target = some target)
    (h_ttype : target.type = TypeTargetDirect)
    (h_tu : target.User = some tu)
    (h_find : Channel.findUserByID ch tu.id = some tconn)
    (h_targetUser : mapLookup s.users tconn = some userTarget)
    (hne : tconn ≠ conn) :
    userSend (dispatchMessage s conn message) tconn = userSend s tconn ++ [message] ∧
    userSend (dispatchMessage s conn message) conn =
      userSend s conn ++
        [{ message with
           User := some (userInfoOf user),
           Target := some { target with User := some (userInfoOf userTarget) },
           Response := some { Status := true, Message := ResponseMessageSuccess } }] := by
  have huser1 : mapLookup
      (SetActivity s conn TypeUserActivityMessageSend (some message)).users conn =
      some { user with activity := user.activity ++
        [{ type := TypeUserActivityMessageSend, Message := some message }] } := by
    rw [mapLookup_users_SetActivity, if_pos rfl, h_user]
    rfl
  have htu1 : mapLookup
      (SetActivity s conn TypeUserActivityMessageSend (some message)).users tconn =
      some userTarget := by
    rw [mapLookup_users_SetActivity, if_neg hne]
    exact h_targetUser
  have hdisp : dispatchMessage s conn message =
      pushSend
        (pushSend (SetActivity s conn TypeUserActivityMessageSend (some message))
          tconn message)
        conn
        { message with
          User := some (userInfoOf user),
          Target := some { target with User := some (userInfoOf userTarget) },
          Response := some { Status := true, Message := ResponseMessageSuccess } } := by
    rw [dispatchMessage_send s conn message user chID h_user h_cmd h_chan,
      handleSendMessage_direct _ conn message target h_body h_target h_ttype,
      handleSendDirectMessage_found _ conn message _ chID ch target tu tconn userTarget
        huser1 h_chan h_ch h_target h_tu h_find htu1]
    rfl
  constructor
  · rw [hdisp, userSend_pushSend_ne _ conn tconn _ hne]
    have hsome : (mapLookup
        (SetActivity s conn TypeUserActivityMessageSend (some message)).users
        tconn).isSome := by
      rw [htu1]
      rfl
    rw [userSend_pushSend_self _ tconn _ hsome, userSend_SetActivity]
  · rw [hdisp]
    have hsome : (mapLookup
        (pushSend (SetActivity s conn TypeUserActivityMessageSend (some message))
          tconn message).users conn).isSome := by
      rw [mapLookup_users_pushSend, if_neg (fun hh => hne hh.symm),
        mapLookup_users_SetActivity, if_pos rfl, h_user]
      rfl
    rw [userSend_pushSend_self _ conn _ hsome,
      userSend_pushSend_ne _ tconn conn _ (fun hh => hne hh.symm), userSend_SetActivity]

/-- C3: For every direct-targeted send command whose target user id does not
resolve in the sender's channel, the sender receives exactly one response
with status false and code userTargetNotConnected, no other user's outbound
queue receives anything, and nothing else changes (beyond the sender's
response and its activity event). -/
theorem directSend_unknown_target_notConnected
    (s : SystemState) (conn : Nat) (message : Message) (user : User) (chID : String)
    (ch : Channel) (target : TargetInfo) (tu : UserInfo)
    (h_user : mapLookup s.users conn = some user)
    (h_chan : user.channel = some chID)
    (h_ch : mapLookup s.channels chID = some ch)
    (h_cmd : message.Command = CommandMessageSend)
    (h_body : message.Message.isSome)
    (h_target : message.Target = some target)
    (h_ttype : target.type = TypeTargetDirect)
    (h_tu : target.User = some tu)
    (h_find : Channel.findUserByID ch tu.id = none) :
    userSend (dispatchMessage s conn message) conn =
      userSend s conn ++
        [{ message with
           Response := some { Status := false,
                              Message := ResponseMessageUserTargetNotConnected },
           User := some (userInfoOf user) }] ∧
    (∀ c, c ≠ conn →
      mapLookup (dispatchMessage s conn message).users c = mapLookup s.users c) ∧
    (dispatchMessage s conn message).channels = s.channels ∧
    (dispatchMessage s conn message).groupStore = s.groupStore ∧
    (dispatchMessage s conn message).nextInst = s.nextInst ∧
    mapLookup (dispatchMessage s conn message).users conn =
      some { user with
             send := user.send ++
               [{ message with
                  Response := some { Status := false,
                                     Message := ResponseMessageUserTargetNotConnected },
                  User := some (userInfoOf user) }],
             activity := user.activity ++
               [{ type := TypeUserActivityMessageSend, Message := some message }] } := by
  have huser1 : mapLookup
      (SetActivity s conn TypeUserActivityMessageSend (some message)).users conn =
      some { user with activity := user.activity ++
        [{ type := TypeUserActivityMessageSend, Message := some message }] } := by
    rw [mapLookup_users_SetActivity, if_pos rfl, h_user]
    rfl
  have hdisp : dispatchMessage s conn message =
      pushSend (SetActivity s conn TypeUserActivityMessageSend (some message)) conn
        { message with
          Response := some { Status := false,
                             Message := ResponseMessageUserTargetNotConnected },
          User := some (userInfoOf user) } := by
    rw [dispatchMessage_send s conn message user chID h_user h_cmd h_chan,
      handleSendMessage_direct _ conn message target h_body h_target h_ttype,
      handleSendDirectMessage_miss _ conn message _ chID ch target tu
        huser1 h_chan h_ch h_target h_tu h_find]
    rfl
  have hsome : (mapLookup
      (SetActivity s conn TypeUserActivityMessageSend (some message)).users
      conn).isSome := by
    rw [huser1]
    rfl
  refine ⟨?_, ?_, ?_, ?_, ?_, ?_⟩
  · rw [hdisp, userSend_pushSend_self _ conn _ hsome, userSend_SetActivity]
  · intro c hc
    rw [hdisp, mapLookup_users_pushSend, if_neg hc, mapLookup_users_SetActivity, if_neg hc]
  · rw [hdisp]
    rfl
  · rw [hdisp]
    rfl
  · rw [hdisp]
    rfl
  · rw [hdisp, mapLookup_users_pushSend, if_pos rfl, mapLookup_users_SetActivity,
      if_pos rfl, h_user]
    rfl

/-- C4: For every connect command missing the user field or the channel
field, the sender receives exactly one response with status false and code
invalidPayload; the user's identity fields, channel and joined-set stay
unchanged, no channel is created or registered, and the user is not
registered into any channel. -/
theorem connect_invalid_payload_mutates_nothing
    (s : SystemState) (conn : Nat) (message : Message) (user : User)
    (h_user : mapLookup s.users conn = some user)
    (h_cmd : message.Command = CommandUserConnect)
    (h_invalid : message.User = none ∨ message.Channel = none) :
    userSend (dispatchMessage s conn message) conn =
      userSend s conn ++
        [{ message with
           Response := some { Status := false,
                              Message := ResponseMessageInvalidPayload } }] ∧
    (∀ c, c ≠ conn →
      mapLookup (dispatchMessage s conn message).users c = mapLookup s.users c) ∧
    (dispatchMessage s conn message).channels = s.channels ∧
    (dispatchMessage s conn message).groupStore = s.groupStore ∧
    (dispatchMessage s conn message).nextInst = s.nextInst ∧
    mapLookup (dispatchMessage s conn message).users conn =
      some { user with
             send := user.send ++
               [{ message with
                  Response := some { Status := false,
                                     Message := ResponseMessageInvalidPayload } }],
             activity := user.activity ++
               [{ type := TypeUserActivityChannelConnect, Message := some message }] } := by
  have huser1 : mapLookup
      (SetActivity s conn TypeUserActivityChannelConnect (some message)).users conn =
      some { user with activity := user.activity ++
        [{ type := TypeUserActivityChannelConnect, Message := some message }] } := by
    rw [mapLookup_users_SetActivity, if_pos rfl, h_user]
    rfl
  have hdisp : dispatchMessage s conn message =
      pushSend (SetActivity s conn TypeUserActivityChannelConnect (some message)) conn
        { message with
          Response := some { Status := false,
                             Message := ResponseMessageInvalidPayload } } := by
    rw [dispatchMessage_connect s conn message user h_user h_cmd,
      handleUserConnect_invalid _ conn message _ huser1 h_invalid]
  have hsome : (mapLookup
      (SetActivity s conn TypeUserActivityChannelConnect (some message)).users
      conn).isSome := by
    rw [huser1]
    rfl
  refine ⟨?_, ?_, ?_, ?_, ?_, ?_⟩
  · rw [hdisp, userSend_pushSend_self _ conn _ hsome, userSend_SetActivity]
  · intro c hc
    rw [hdisp, mapLookup_users_pushSend, if_neg hc, mapLookup_users_SetActivity, if_neg hc]
  · rw [hdisp]
    rfl
  · rw [hdisp]
    rfl
  · rw [hdisp]
    rfl
  · rw [hdisp, mapLookup_users_pushSend, if_pos rfl, mapLookup_users_SetActivity,
      if_pos rfl, h_user]
    rfl

/-- C9: For every group-targeted send command whose group id does not resolve
to any group in the channel, the command is silently dropped: no response of
any kind is sent to the sender, no outbound queue receives anything, and no
state changes beyond the activity event that precedes every handler. -/
theorem groupSend_unknown_group_silently_dropped
    (s : SystemState) (conn : Nat) (message : Message) (user : User) (chID : String)
    (ch : Channel) (target : TargetInfo) (tg : GroupInfo)
    (h_user : mapLookup s.users conn = some user)
    (h_chan : user.channel = some chID)
    (h_ch : mapLookup s.channels chID = some ch)
    (h_cmd : message.Command = CommandMessageSend)
    (h_body : message.Message.isSome)
    (h_target : message.Target = some target)
    (h_ttype : target.type = TypeTargetGroup)
    (h_tg : target.Group = some tg)
    (h_find : Channel.findGroupByID ch tg.id = none) :
    dispatchMessage s conn message =
      SetActivity s conn TypeUserActivityMessageSend (some message) ∧
    (∀ c, userSend (dispatchMessage s conn message) c = userSend s c) ∧
    (dispatchMessage s conn message).channels = s.channels ∧
    (dispatchMessage s conn message).groupStore = s.groupStore ∧
    (dispatchMessage s conn message).nextInst = s.nextInst ∧
    (∀ c, c ≠ conn →
      mapLookup (dispatchMessage s conn message).users c = mapLookup s.users c) ∧
    mapLookup (dispatchMessage s conn message).users conn =
      some { user with activity := user.activity ++
        [{ type := TypeUserActivityMessageSend, Message := some message }] } := by
  have huser1 : mapLookup
      (SetActivity s conn TypeUserActivityMessageSend (some message)).users conn =
      some { user with activity := user.activity ++
        [{ type := TypeUserActivityMessageSend, Message := some message }] } := by
    rw [mapLookup_users_SetActivity, if_pos rfl, h_user]
    rfl
  have hdisp : dispatchMessage s conn message =
      SetActivity s conn TypeUserActivityMessageSend (some message) := by
    rw [dispatchMessage_send s conn message user chID h_user h_cmd h_chan,
      handleSendMessage_group _ conn message target h_body h_target h_ttype,
      handlerSendGroupMessage_miss _ conn message _ chID ch target tg
        huser1 h_chan h_ch h_target h_tg h_find]
  refine ⟨hdisp, ?_, ?_, ?_, ?_, ?_, ?_⟩
  · intro c
    rw [hdisp, userSend_SetActivity]
  · rw [hdisp]
    rfl
  · rw [hdisp]
    rfl
  · rw [hdisp]
    rfl
  · intro c hc
    rw [hdisp, mapLookup_users_SetActivity, if_neg hc]
  · rw [hdisp]
    exact huser1

/-- C10: For every send, groupJoin or groupLeave command received by a user
whose channel is still nil (no successful connect yet), the handler is not
invoked: the dispatch step is exactly the emission of the activity event
tagged with the command kind — no response envelope is enqueued and no other
state is mutated. -/
theorem channelScoped_commands_skipped_without_channel
    (s : SystemState) (conn : Nat) (message : Message) (user : User)
    (h_user : mapLookup s.users conn = some user)
    (h_chan : user.channel = none) :
    (message.Command = CommandMessageSend →
      dispatchMessage s conn message =
        SetActivity s conn TypeUserActivityMessageSend (some message)) ∧
    (message.Command = CommandGroupJoin →
      dispatchMessage s conn message =
        SetActivity s conn TypeUserActivityGroupJoin (some message)) ∧
    (message.Command = CommandGroupLeave →
      dispatchMessage s conn message =
        SetActivity s conn TypeUserActivityGroupLeave (some message)) ∧
    (∀ a, userSend (SetActivity s conn a (some message)) conn = userSend s conn ∧
      (SetActivity s conn a (some message)).channels = s.channels ∧
      (SetActivity s conn a (some message)).groupStore = s.groupStore ∧
      (SetActivity s conn a (some message)).nextInst = s.nextInst ∧
      (∀ c, c ≠ conn →
        mapLookup (SetActivity s conn a (some message)).users c = mapLookup s.users c) ∧
      mapLookup (SetActivity s conn a (some message)).users conn =
        some { user with activity := user.activity ++
          [{ type := a, Message := some message }] }) := by
  refine ⟨?_, ?_, ?_, ?_⟩
  · intro h
    unfold dispatchMessage
    rw [h_user]
    dsimp only
    rw [h, if_neg (by decide : ¬(CommandMessageSend = CommandUserConnect)), if_pos rfl,
      h_chan]
    simp
  · intro h
    unfold dispatchMessage
    rw [h_user]
    dsimp only
    rw [h, if_neg (by decide : ¬(CommandGroupJoin = CommandUserConnect)),
      if_neg (by decide : ¬(CommandGroupJoin = CommandMessageSend)), if_pos rfl, h_chan]
    simp
  · intro h
    unfold dispatchMessage
    rw [h_user]
    dsimp only
    rw [h, if_neg (by decide : ¬(CommandGroupLeave = CommandUserConnect)),
      if_neg (by decide : ¬(CommandGroupLeave = CommandMessageSend)),
      if_neg (by decide : ¬(CommandGroupLeave = CommandGroupJoin)), if_pos rfl, h_chan]
    simp
  · intro a
    refine ⟨userSend_SetActivity s conn conn a (some message), rfl, rfl, rfl, ?_, ?_⟩
    · intro c hc
      rw [mapLookup_users_SetActivity, if_neg hc]
    · rw [mapLookup_users_SetActivity, if_pos rfl, h_user]
      rfl

/-- C8: For every registry state and channel, registering a channel whose id
already exists leaves the registry unchanged, registering the same id twice
leaves exactly one entry for that id, and unregistering an absent id leaves
the registry unchanged. -/
theorem registerChannel_idempotent_and_unregister_absent_noop
    (channels : List (String × Channel)) (c : Channel) :
    ((mapLookup channels c.ID).isSome → handleRegisterChannel channels c = channels) ∧
    (countKey channels c.ID ≤ 1 →
      countKey (handleRegisterChannel (handleRegisterChannel channels c) c) c.ID = 1) ∧
    (mapLookup channels c.ID = none → handleUnregisterChannel channels c = channels) := by
  refine ⟨?_, ?_, ?_⟩
  · intro h
    unfold handleRegisterChannel
    rw [if_pos h]
  · intro h
    by_cases hs : (mapLookup channels c.ID).isSome
    · have hid : handleRegisterChannel channels c = channels := by
        unfold handleRegisterChannel
        rw [if_pos hs]
      rw [hid, hid]
      have := countKey_pos_of_lookup_isSome channels c.ID hs
      omega
    · have hnone : mapLookup channels c.ID = none :=
        Option.not_isSome_iff_eq_none.mp hs
      have h1 : handleRegisterChannel channels c = channels ++ [(c.ID, c)] := by
        unfold handleRegisterChannel mapInsert
        rw [if_neg hs, if_neg hs]
      have h2 : mapLookup (channels ++ [(c.ID, c)]) c.ID = some c := by
        rw [mapLookup_append, hnone]
        simp [mapLookup]
      have h3 : handleRegisterChannel (channels ++ [(c.ID, c)]) c =
          channels ++ [(c.ID, c)] := by
        unfold handleRegisterChannel
        rw [h2]
        simp
      rw [h1, h3, countKey_append, countKey_eq_zero_of_lookup_none channels c.ID hnone]
      simp [countKey, List.countP_cons]
  · intro h
    unfold handleUnregisterChannel
    exact mapDelete_of_lookup_none channels c.ID h

/-- C6: For every groupLeave command by a connected user naming an existing
group of which that user is the last member, the group is removed from its
channel (no longer resolvable by id), the sender receives a success
response, and a subsequent join to the same group id creates a fresh group
instance (a new allocation, distinct from the removed one). -/
theorem groupLeave_last_member_removes_group_and_rejoin_is_fresh
    (s : SystemState) (conn : Nat) (message mJoin : Message) (user : User)
    (chID : String) (ch : Channel) (mg mg2 : GroupInfo) (inst : Nat) (g : Group)
    (h_user : mapLookup s.users conn = some user)
    (h_chan : user.channel = some chID)
    (h_ch : mapLookup s.channels chID = some ch)
    (h_cmd : message.Command = CommandGroupLeave)
    (h_mg : message.Group = some mg)
    (h_find : Channel.findGroupByID ch mg.id = some inst)
    (h_store : mapLookup s.groupStore inst = some g)
    (h_gid : g.ID = mg.id)
    (h_last : g.users = [(user.ID, conn)])
    (h_fresh : inst < s.nextInst)
    (h_jcmd : mJoin.Command = CommandGroupJoin)
    (h_jmg : mJoin.Group = some mg2)
    (h_jid : mg2.id = mg.id) :
    (mapLookup (dispatchMessage s conn message).channels chID).map
        (fun c => Channel.findGroupByID c mg.id) = some none ∧
    userSend (dispatchMessage s conn message) conn =
      userSend s conn ++
        [{ message with
           User := some (userInfoOf user),
           Group := some (groupInfoOf (Group.handleUnregisterUser g user.ID)),
           Response := some { Status := true, Message := ResponseMessageSuccess } }] ∧
    (mapLookup (dispatchMessage (dispatchMessage s conn message) conn mJoin).channels
        chID).map (fun c => Channel.findGroupByID c mg.id) = some (some s.nextInst) ∧
    s.nextInst ≠ inst := by
  have huser1 : mapLookup
      (SetActivity s conn TypeUserActivityGroupLeave (some message)).users conn =
      some { user with activity := user.activity ++
        [{ type := TypeUserActivityGroupLeave, Message := some message }] } := by
    rw [mapLookup_users_SetActivity, if_pos rfl, h_user]
    rfl
  have hgu : Group.handleUnregisterUser g user.ID = { g with users := [] } := by
    unfold Group.handleUnregisterUser
    rw [h_last]
    simp [mapDelete]
  have hlen : (Group.handleUnregisterUser g user.ID).users.length = 0 := by
    rw [hgu]
    rfl
  have hdisp1 : dispatchMessage s conn message =
      pushSend
        (updChannel
          (updGroup
            (updUser (SetActivity s conn TypeUserActivityGroupLeave (some message)) conn
              (fun u => { u with groups := mapDelete u.groups user.ID }))
            g.inst (fun _ => Group.handleUnregisterUser g user.ID))
          chID (fun c => c.handleUnregisterGroup (Group.handleUnregisterUser g user.ID)))
        conn
        { message with
          User := some (userInfoOf user),
          Group := some (groupInfoOf (Group.handleUnregisterUser g user.ID)),
          Response := some { Status := true, Message := ResponseMessageSuccess } } := by
    rw [dispatchMessage_groupLeave s conn message user chID h_user h_cmd h_chan,
      handleGroupLeave_found _ conn message
        ({ user with activity := user.activity ++
          [{ type := TypeUserActivityGroupLeave, Message := some message }] })
        user.ID chID ch mg inst g rfl huser1 h_mg h_chan h_ch h_find h_store,
      if_pos hlen]
    rfl
  have hchan1 : mapLookup (dispatchMessage s conn message).channels chID =
      some (Channel.handleUnregisterGroup ch (Group.handleUnregisterUser g user.ID)) := by
    rw [hdisp1, channels_pushSend, mapLookup_channels_updChannel, if_pos rfl,
      channels_updGroup, channels_updUser, channels_SetActivity, h_ch]
    rfl
  have hfindgone : ∀ gid, gid = mg.id →
      Channel.findGroupByID
        (Channel.handleUnregisterGroup ch (Group.handleUnregisterUser g user.ID)) gid =
        none := by
    intro gid hg
    unfold Channel.findGroupByID Channel.handleUnregisterGroup
    dsimp only
    rw [show (Group.handleUnregisterUser g user.ID).ID = g.ID from rfl, h_gid,
      mapLookup_mapDelete, if_pos hg]
  have hlook3 : mapLookup
      (updChannel
        (updGroup
          (updUser (SetActivity s conn TypeUserActivityGroupLeave (some message)) conn
            (fun u => { u with groups := mapDelete u.groups user.ID }))
          g.inst (fun _ => Group.handleUnregisterUser g user.ID))
        chID
        (fun c => c.handleUnregisterGroup (Group.handleUnregisterUser g user.ID))).users
      conn =
      some { user with
             groups := mapDelete user.groups user.ID,
             activity := user.activity ++
               [{ type := TypeUserActivityGroupLeave, Message := some message }] } := by
    rw [users_updChannel, users_updGroup, mapLookup_users_updUser, if_pos rfl,
      mapLookup_users_SetActivity, if_pos rfl, h_user]
    rfl
  have husend : userSend s conn = user.send := by
    unfold userSend
    rw [h_user]
  refine ⟨?_, ?_, ?_, by omega⟩
  · rw [hchan1]
    simp [hfindgone mg.id rfl]
  · rw [hdisp1]
    have hsome : (mapLookup
        (updChannel
          (updGroup
            (updUser (SetActivity s conn TypeUserActivityGroupLeave (some message)) conn
              (fun u => { u with groups := mapDelete u.groups user.ID }))
            g.inst (fun _ => Group.handleUnregisterUser g user.ID))
          chID
          (fun c => c.handleUnregisterGroup (Group.handleUnregisterUser g user.ID))).users
        conn).isSome := by
      rw [hlook3]
      rfl
    rw [userSend_pushSend_self _ conn _ hsome]
    have husend3 : userSend
        (updChannel
          (updGroup
            (updUser (SetActivity s conn TypeUserActivityGroupLeave (some message)) conn
              (fun u => { u with groups := mapDelete u.groups user.ID }))
            g.inst (fun _ => Group.handleUnregisterUser g user.ID))
          chID
          (fun c => c.handleUnregisterGroup (Group.handleUnregisterUser g user.ID)))
        conn = user.send := by
      unfold userSend
      rw [hlook3]
    rw [husend3, husend]
  · have hlook4 : mapLookup (dispatchMessage s conn message).users conn =
        some { user with
               groups := mapDelete user.groups user.ID,
               send := user.send ++
                 [{ message with
                    User := some (userInfoOf user),
                    Group := some (groupInfoOf (Group.handleUnregisterUser g user.ID)),
                    Response := some { Status := true,
                                       Message := ResponseMessageSuccess } }],
               activity := user.activity ++
                 [{ type := TypeUserActivityGroupLeave, Message := some message }] } := by
      rw [hdisp1, mapLookup_users_pushSend, if_pos rfl, hlook3]
      rfl
    have huser4 : mapLookup
        (SetActivity (dispatchMessage s conn message) conn TypeUserActivityGroupJoin
          (some mJoin)).users conn =
        some { user with
               groups := mapDelete user.groups user.ID,
               send := user.send ++
                 [{ message with
                    User := some (userInfoOf user),
                    Group := some (groupInfoOf (Group.handleUnregisterUser g user.ID)),
                    Response := some { Status := true,
                                       Message := ResponseMessageSuccess } }],
               activity := user.activity ++
                 [{ type := TypeUserActivityGroupLeave, Message := some message }] ++
                 [{ type := TypeUserActivityGroupJoin, Message := some mJoin }] } := by
      rw [mapLookup_users_SetActivity, if_pos rfl, hlook4]
      rfl
    have hfind2 : Channel.findGroupByID
        (Channel.handleUnregisterGroup ch (Group.handleUnregisterUser g user.ID))
        mg2.id = none := hfindgone mg2.id h_jid
    set t2 := SetActivity (dispatchMessage s conn message) conn
      TypeUserActivityGroupJoin (some mJoin) with ht2
    have hdisp2 : dispatchMessage (dispatchMessage s conn message) conn mJoin =
        pushSend
          (updUser
            (updGroup
              (updChannel
                { t2 with
                  groupStore := t2.groupStore ++
                    [(t2.nextInst, NewGroup t2.nextInst mg2.id mg2.name mg2.additionalInfo)],
                  nextInst := t2.nextInst + 1 }
                chID
                (fun c => c.handleRegisterGroup
                  (NewGroup t2.nextInst mg2.id mg2.name mg2.additionalInfo)))
              t2.nextInst
              (fun gg => gg.handleRegisterUser user.ID conn))
            conn
            (fun u => { u with groups := mapInsert u.groups mg2.id t2.nextInst }))
          conn
          { mJoin with
            User := some (userInfoOf user),
            Message := some { type := TypeMessageText, Text := MessageGroupJoin },
            Response := some { Status := true, Message := ResponseMessageSuccess } } := by
      rw [dispatchMessage_groupJoin (dispatchMessage s conn message) conn mJoin _ chID
          hlook4 h_jcmd h_chan,
        handleGroupJoin_new _ conn mJoin _ chID
          (Channel.handleUnregisterGroup ch (Group.handleUnregisterUser g user.ID)) mg2
          huser4 h_jmg h_chan hchan1 hfind2]
      rfl
    have hinst : t2.nextInst = s.nextInst := by
      rw [ht2, nextInst_SetActivity, hdisp1]
      rfl
    rw [hdisp2, channels_pushSend, channels_updUser, channels_updGroup,
      mapLookup_channels_updChannel, if_pos rfl, channels_setGroupStore, ht2,
      channels_SetActivity, hchan1, hinst]
    have hreg : Channel.findGroupByID
        (Channel.handleRegisterGroup
          (Channel.handleUnregisterGroup ch (Group.handleUnregisterUser g user.ID))
          (NewGroup s.nextInst mg2.id mg2.name mg2.additionalInfo))
        mg.id = some s.nextInst := by
      unfold Channel.findGroupByID Channel.handleRegisterGroup
      dsimp only
      rw [show (NewGroup s.nextInst mg2.id mg2.name mg2.additionalInfo).ID = mg2.id
          from rfl,
        show (NewGroup s.nextInst mg2.id mg2.name mg2.additionalInfo).inst = s.nextInst
          from rfl,
        mapLookup_mapInsert, if_pos h_jid.symm]
    simp [hreg]

/-- C5 (amended): validation errors — a connect without user+channel, a send
without message body or target, and a groupLeave without group each draw
exactly one status=false response carrying code invalidPayload to the
sender; a groupJoin without group, however, draws no response at all (the
command is silently ignored). -/
theorem missing_field_validation_responses
    (s : SystemState) (conn : Nat) (message : Message) (user : User) (chID : String)
    (h_user : mapLookup s.users conn = some user)
    (h_chan : user.channel = some chID) :
    (message.Command = CommandUserConnect →
      (message.User = none ∨ message.Channel = none) →
      userSend (dispatchMessage s conn message) conn =
        userSend s conn ++
          [{ message with
             Response := some { Status := false,
                                Message := ResponseMessageInvalidPayload } }]) ∧
    (message.Command = CommandMessageSend →
      (message.Message = none ∨ message.Target = none) →
      userSend (dispatchMessage s conn message) conn =
        userSend s conn ++
          [{ message with
             Response := some { Status := false,
                                Message := ResponseMessageInvalidPayload } }]) ∧
    (message.Command = CommandGroupLeave → message.Group = none →
      userSend (dispatchMessage s conn message) conn =
        userSend s conn ++
          [{ message with
             Response := some { Status := false,
                                Message := ResponseMessageInvalidPayload } }]) ∧
    (message.Command = CommandGroupJoin → message.Group = none →
      userSend (dispatchMessage s conn message) conn = userSend s conn) := by
  refine ⟨?_, ?_, ?_, ?_⟩
  · intro h_cmd h_invalid
    have huser1 : mapLookup
        (SetActivity s conn TypeUserActivityChannelConnect (some message)).users conn =
        some { user with activity := user.activity ++
          [{ type := TypeUserActivityChannelConnect, Message := some message }] } := by
      rw [mapLookup_users_SetActivity, if_pos rfl, h_user]
      rfl
    have hsome : (mapLookup
        (SetActivity s conn TypeUserActivityChannelConnect (some message)).users
        conn).isSome := by
      rw [huser1]
      rfl
    rw [dispatchMessage_connect s conn message user h_user h_cmd,
      handleUserConnect_invalid _ conn message _ huser1 h_invalid,
      userSend_pushSend_self _ conn _ hsome, userSend_SetActivity]
  · intro h_cmd h_invalid
    have hsome : (mapLookup
        (SetActivity s conn TypeUserActivityMessageSend (some message)).users
        conn).isSome := by
      rw [mapLookup_users_SetActivity, if_pos rfl, h_user]
      rfl
    rw [dispatchMessage_send s conn message user chID h_user h_cmd h_chan,
      handleSendMessage_invalid _ conn message h_invalid,
      userSend_pushSend_self _ conn _ hsome, userSend_SetActivity]
  · intro h_cmd h_mg
    have huser1 : mapLookup
        (SetActivity s conn TypeUserActivityGroupLeave (some message)).users conn =
        some { user with activity := user.activity ++
          [{ type := TypeUserActivityGroupLeave, Message := some message }] } := by
      rw [mapLookup_users_SetActivity, if_pos rfl, h_user]
      rfl
    have hsome : (mapLookup
        (SetActivity s conn TypeUserActivityGroupLeave (some message)).users
        conn).isSome := by
      rw [huser1]
      rfl
    rw [dispatchMessage_groupLeave s conn message user chID h_user h_cmd h_chan,
      handleGroupLeave_noGroup _ conn message _ huser1 h_mg,
      userSend_pushSend_self _ conn _ hsome, userSend_SetActivity]
  · intro h_cmd h_mg
    have huser1 : mapLookup
        (SetActivity s conn TypeUserActivityGroupJoin (some message)).users conn =
        some { user with activity := user.activity ++
          [{ type := TypeUserActivityGroupJoin, Message := some message }] } := by
      rw [mapLookup_users_SetActivity, if_pos rfl, h_user]
      rfl
    rw [dispatchMessage_groupJoin s conn message user chID h_user h_cmd h_chan,
      handleGroupJoin_noGroup _ conn message _ huser1 h_mg, userSend_SetActivity]

/-! ## Concrete example states -/

/-- An envelope with every optional field absent. -/
def emptyMsg : Message :=
  { Command := "", User := none, Channel := none, Group := none,
    Message := none, Target := none, Response := none }

/-- Example user `u1`, connected to channel `c1` on connection 0. -/
def exUser1 : User :=
  { ID := "u1", Name := "user one", AdditionalInfo := [], channel := some "c1",
    groups := [("g1", 0)], send := [], activity := [] }

/-- Example user `u2`, connected to channel `c1` on connection 1. -/
def exUser2 : User :=
  { ID := "u2", Name := "user two", AdditionalInfo := [], channel := some "c1",
    groups := [("g1", 0)], send := [], activity := [] }

/-- Example group `g1` (allocation tag 0) whose members are `u1` and `u2`. -/
def exGroup1 : Group :=
  { inst := 0, ID := "g1", Name := "group one", AdditionalInfo := [],
    users := [("u1", 0), ("u2", 1)] }

/-- Example channel `c1` holding `u1`, `u2` and group `g1`. -/
def exChannel1 : Channel :=
  { ID := "c1", Name := "channel one", AdditionalInfo := [],
    users := [("u1", 0), ("u2", 1)], groups := [("g1", 0)] }

/-- Example system state: one channel, one group, two connected users. -/
def exState : SystemState :=
  { channels := [("c1", exChannel1)], groupStore := [(0, exGroup1)],
    users := [(0, exUser1), (1, exUser2)], nextInst := 1 }

/-- Group target naming `g1`. -/
def exTargetGroup : TargetInfo :=
  { type := "group", User := none,
    Group := some { id := "g1", name := "", additionalInfo := [] } }

/-- Direct target naming `u2`. -/
def exTargetU2 : TargetInfo :=
  { type := "direct",
    User := some { id := "u2", name := "", additionalInfo := [] }, Group := none }

/-- Direct target naming the unconnected id `ghost`. -/
def exTargetGhost : TargetInfo :=
  { type := "direct",
    User := some { id := "ghost", name := "", additionalInfo := [] }, Group := none }

/-- A text body for send commands. -/
def exBody : MessageInfo := { type := "text", Text := "hello" }

/-- A group-targeted send command naming `g1`. -/
def exGroupSend : Message :=
  { emptyMsg with
    Command := "message-send", Message := some exBody, Target := some exTargetGroup }

/-- A direct send command naming `u2`. -/
def exDirectSend : Message :=
  { emptyMsg with
    Command := "message-send", Message := some exBody, Target := some exTargetU2 }

/-- A direct send command naming the unconnected id `ghost`. -/
def exGhostSend : Message :=
  { emptyMsg with
    Command := "message-send", Message := some exBody, Target := some exTargetGhost }

/-- A connect command missing the channel field. -/
def exBadConnect : Message :=
  { emptyMsg with
    Command := "user-connect",
    User := some { id := "u9", name := "user nine", additionalInfo := [] } }

/-- A groupJoin command missing the group field. -/
def exJoinNoGroup : Message := { emptyMsg with Command := "group-join" }

/-- A groupLeave command missing the group field. -/
def exLeaveNoGroup : Message := { emptyMsg with Command := "group-leave" }

/-- A groupLeave command naming `g1`. -/
def exLeaveG1 : Message :=
  { emptyMsg with
    Command := "group-leave",
    Group := some { id := "g1", name := "", additionalInfo := [] } }

/-- A groupJoin command naming `g1`. -/
def exJoinG1 : Message :=
  { emptyMsg with
    Command := "group-join",
    Group := some { id := "g1", name := "group one", additionalInfo := [] } }

/-- A group-targeted send command naming the unregistered id `nogroup`. -/
def exNoGroupSend : Message :=
  { emptyMsg with
    Command := "message-send", Message := some exBody,
    Target := some { type := "group", User := none,
                     Group := some { id := "nogroup", name := "",
                                     additionalInfo := [] } } }

/-- Example channel `c1` holding only `u1`, with `g1` registered. -/
def exChannelLast : Channel :=
  { ID := "c1", Name := "channel one", AdditionalInfo := [],
    users := [("u1", 0)], groups := [("g1", 0)] }

/-- Example group `g1` whose only member is `u1`. -/
def exGroupLast : Group :=
  { inst := 0, ID := "g1", Name := "group one", AdditionalInfo := [],
    users := [("u1", 0)] }

/-- Example state in which `u1` alone is connected and is the last member of
`g1`. -/
def exStateLast : SystemState :=
  { channels := [("c1", exChannelLast)], groupStore := [(0, exGroupLast)],
    users := [(0, exUser1)], nextInst := 1 }

/-- Example state in which `u1` is connected to `c1` and no group exists. -/
def exStateFresh : SystemState :=
  { channels :=
      [("c1", { ID := "c1", Name := "channel one", AdditionalInfo := [],
                users := [("u1", 0)], groups := [] })],
    groupStore := [],
    users := [(0, { ID := "u1", Name := "user one", AdditionalInfo := [],
                    channel := some "c1", groups := [], send := [],
                    activity := [] })],
    nextInst := 0 }

/-- Example state with one user that has not yet connected (channel nil). -/
def exState0 : SystemState :=
  { channels := [], groupStore := [], users := [(0, NewUser)], nextInst := 0 }

/-! ## Witnesses, counterexamples and bug evaluations -/

/-- C7, evaluation at the failing input: user `u1` joins `g1` and then leaves
`g1`, yet the joined-set still holds the entry keyed by the group id `g1`,
because the leave deletes the key `u1` (the user's own id) instead. -/
theorem groupLeave_deletes_wrong_key_in_joined_set :
    (mapLookup (dispatchMessage (dispatchMessage exStateFresh 0 exJoinG1) 0
        exLeaveG1).users 0).map (fun u => mapLookup u.groups "g1") =
      some (some 0) := by
  decide

/-- C5, counterexample to the claim as stated: a groupJoin command with a
missing group field, sent by a connected user, draws no response envelope at
all (the claim predicts a status=false response). -/
theorem groupJoin_missing_group_draws_no_response :
    exJoinNoGroup.Command = CommandGroupJoin ∧
    exJoinNoGroup.Group = none ∧
    (mapLookup exState.users 0).isSome ∧
    exUser1.channel.isSome ∧
    userSend (dispatchMessage exState 0 exJoinNoGroup) 0 = userSend exState 0 := by
  decide

/-- Witness for C1 at the concrete two-member state. -/
theorem groupSend_broadcasts_to_members_and_acks_sender_witness :
    userSend (dispatchMessage exState 0 exGroupSend) 0 =
      userSend exState 0 ++
        [{ exGroupSend with
           User := some (userInfoOf exUser1),
           Target := some { exTargetGroup with Group := some (groupInfoOf exGroup1) },
           Response := some { Status := true, Message := ResponseMessageSuccess } }] ∧
    userSend (dispatchMessage exState 0 exGroupSend) 1 =
      userSend exState 1 ++
        [{ exGroupSend with
           User := some (userInfoOf exUser1),
           Target := some { exTargetGroup with Group := some (groupInfoOf exGroup1) } }] := by
  have h := groupSend_broadcasts_to_members_and_acks_sender exState 0 exGroupSend exUser1
    "c1" exChannel1 exTargetGroup { id := "g1", name := "", additionalInfo := [] } 0
    exGroup1 rfl rfl rfl rfl rfl rfl rfl rfl rfl rfl
  exact ⟨h.1, h.2 "u2" 1 exUser2 (by decide) (by decide) rfl (by decide) (by decide)⟩

/-- Witness for C2 at the concrete two-user state. -/
theorem directSend_delivers_one_copy_and_acks_sender_witness :
    userSend (dispatchMessage exState 0 exDirectSend) 1 =
      userSend exState 1 ++ [exDirectSend] ∧
    userSend (dispatchMessage exState 0 exDirectSend) 0 =
      userSend exState 0 ++
        [{ exDirectSend with
           User := some (userInfoOf exUser1),
           Target := some { exTargetU2 with User := some (userInfoOf exUser2) },
           Response := some { Status := true, Message := ResponseMessageSuccess } }] :=
  directSend_delivers_one_copy_and_acks_sender exState 0 exDirectSend exUser1 "c1"
    exChannel1 exTargetU2 { id := "u2", name := "", additionalInfo := [] } 1 exUser2
    rfl rfl rfl rfl rfl rfl rfl rfl rfl rfl (by decide)

/-- Witness for C3: a direct send to the unconnected id `ghost`. -/
theorem directSend_unknown_target_notConnected_witness :
    userSend (dispatchMessage exState 0 exGhostSend) 0 =
      userSend exState 0 ++
        [{ exGhostSend with
           Response := some { Status := false,
                              Message := ResponseMessageUserTargetNotConnected },
           User := some (userInfoOf exUser1) }] ∧
    (dispatchMessage exState 0 exGhostSend).channels = exState.channels ∧
    mapLookup (dispatchMessage exState 0 exGhostSend).users 1 =
      mapLookup exState.users 1 := by
  have h := directSend_unknown_target_notConnected exState 0 exGhostSend exUser1 "c1"
    exChannel1 exTargetGhost { id := "ghost", name := "", additionalInfo := [] }
    rfl rfl rfl rfl rfl rfl rfl rfl rfl
  exact ⟨h.1, h.2.2.1, h.2.1 1 (by decide)⟩

/-- Witness for C4: a connect command missing the channel field. -/
theorem connect_invalid_payload_mutates_nothing_witness :
    userSend (dispatchMessage exState 0 exBadConnect) 0 =
      userSend exState 0 ++
        [{ exBadConnect with
           Response := some { Status := false,
                              Message := ResponseMessageInvalidPayload } }] ∧
    (dispatchMessage exState 0 exBadConnect).channels = exState.channels := by
  have h := connect_invalid_payload_mutates_nothing exState 0 exBadConnect exUser1
    rfl rfl (Or.inr rfl)
  exact ⟨h.1, h.2.2.1⟩

/-- Witness for C5 (amended): groupLeave without group draws invalidPayload;
groupJoin without group draws nothing. -/
theorem missing_field_validation_responses_witness :
    userSend (dispatchMessage exState 0 exLeaveNoGroup) 0 =
      userSend exState 0 ++
        [{ exLeaveNoGroup with
           Response := some { Status := false,
                              Message := ResponseMessageInvalidPayload } }] ∧
    userSend (dispatchMessage exState 0 exJoinNoGroup) 0 = userSend exState 0 := by
  refine ⟨?_, ?_⟩
  · exact (missing_field_validation_responses exState 0 exLeaveNoGroup exUser1 "c1"
      rfl rfl).2.2.1 rfl rfl
  · exact (missing_field_validation_responses exState 0 exJoinNoGroup exUser1 "c1"
      rfl rfl).2.2.2 rfl rfl

/-- Witness for C6: `u1` leaves `g1` as its last member, then rejoins. -/
theorem groupLeave_last_member_removes_group_and_rejoin_is_fresh_witness :
    (mapLookup (dispatchMessage exStateLast 0 exLeaveG1).channels "c1").map
        (fun c => Channel.findGroupByID c "g1") = some none ∧
    (mapLookup (dispatchMessage (dispatchMessage exStateLast 0 exLeaveG1) 0
        exJoinG1).channels "c1").map (fun c => Channel.findGroupByID c "g1") =
      some (some 1) := by
  have h := groupLeave_last_member_removes_group_and_rejoin_is_fresh exStateLast 0
    exLeaveG1 exJoinG1 exUser1 "c1" exChannelLast
    { id := "g1", name := "", additionalInfo := [] }
    { id := "g1", name := "group one", additionalInfo := [] } 0 exGroupLast
    rfl rfl rfl rfl rfl rfl rfl rfl rfl (by decide) rfl rfl rfl
  exact ⟨h.1, h.2.2.1⟩

/-- Witness for C8 at concrete registries. -/
theorem registerChannel_idempotent_and_unregister_absent_noop_witness :
    handleRegisterChannel [("c1", exChannel1)] exChannel1 = [("c1", exChannel1)] ∧
    countKey (handleRegisterChannel (handleRegisterChannel [] exChannel1) exChannel1)
      exChannel1.ID = 1 ∧
    handleUnregisterChannel [] exChannel1 = [] := by
  have h1 := registerChannel_idempotent_and_unregister_absent_noop
    [("c1", exChannel1)] exChannel1
  have h2 := registerChannel_idempotent_and_unregister_absent_noop [] exChannel1
  exact ⟨h1.1 rfl, h2.2.1 (by decide), h2.2.2 rfl⟩

/-- Witness for C9: a group send naming the unregistered id `nogroup`. -/
theorem groupSend_unknown_group_silently_dropped_witness :
    dispatchMessage exState 0 exNoGroupSend =
      SetActivity exState 0 TypeUserActivityMessageSend (some exNoGroupSend) ∧
    userSend (dispatchMessage exState 0 exNoGroupSend) 0 = userSend exState 0 ∧
    userSend (dispatchMessage exState 0 exNoGroupSend) 1 = userSend exState 1 := by
  have h := groupSend_unknown_group_silently_dropped exState 0 exNoGroupSend exUser1
    "c1" exChannel1
    { type := "group", User := none,
      Group := some { id := "nogroup", name := "", additionalInfo := [] } }
    { id := "nogroup", name := "", additionalInfo := [] }
    rfl rfl rfl rfl rfl rfl rfl rfl rfl
  exact ⟨h.1, h.2.1 0, h.2.1 1⟩

/-- Witness for C10: a send command from a user that never connected. -/
theorem channelScoped_commands_skipped_without_channel_witness :
    dispatchMessage exState0 0 exGroupSend =
      SetActivity exState0 0 TypeUserActivityMessageSend (some exGroupSend) ∧
    userSend (SetActivity exState0 0 TypeUserActivityMessageSend (some exGroupSend)) 0 =
      userSend exState0 0 := by
  have h := channelScoped_commands_skipped_without_channel exState0 0 exGroupSend
    NewUser rfl rfl
  exact ⟨h.1 rfl, (h.2.2.2 TypeUserActivityMessageSend).1⟩

end Gochat
